import Mathlib

/-!
Shallow embedding of the FMB dump-sheet rule validation engine
(`src/utils/fileParser.ts` of the fmb-validator repository), together with
theorems checking the specification's claims about it.

Modelling conventions:
* A spreadsheet cell is `absent` (JS `undefined`), a numeric cell
  (modelled as an exact integer), or a textual cell.  `Sheet` mirrors the
  source `SheetData` record: `data` is the full row list (row 0 is the
  header row, exactly as the parser produces it) and `headers` is the
  separate header-name list.
* JS `Number(...)` applied to the cell domain is modelled exactly by
  `jsNum` / `parseJsNumber`, an exact decimal parser producing an
  unnormalised fraction `num / 10 ^ exp` (no floating point is involved in
  any behaviour the claims mention).
* JS string helpers (`trim`, `startsWith(' ')`, regex tests, `split(/\s+/)`)
  are implemented over the character list of the string, restricted to the
  ASCII whitespace set.
* The `Date.now()` component of the two Designation-Mapping header
  violation ids is presentational only and is modelled as the constant
  prefix of the id.  The `column` of a whitespace violation for a cell
  beyond the header length (JS `undefined`) is modelled as `""`.
-/

set_option maxRecDepth 10000

inductive Severity where
  | error
  | warning
  | info
deriving DecidableEq, Repr

/-- A cell value: absent (JS `undefined` / missing trailing cell), a numeric
cell, or a textual cell. -/
inductive CellValue where
  | absent
  | num (n : Int)
  | text (s : String)
deriving DecidableEq, Repr

abbrev Row := List CellValue

/-- Mirrors the source `SheetData` interface. -/
structure Sheet where
  name : String
  data : List Row
  headers : List String
deriving DecidableEq, Repr

/-- Mirrors the source `ValidationError` interface. -/
structure Violation where
  id : String
  sheet : String
  row : Nat
  column : String
  field : String
  message : String
  severity : Severity
  rule : String
deriving DecidableEq, Repr

/-- Mirrors the source `ValidationSummary` interface; the JS
`Record<string, number>` objects are association lists in key-insertion
order. -/
structure ValidationSummary where
  totalErrors : Nat
  totalWarnings : Nat
  errorsBySheet : List (String × Nat)
  warningsBySheet : List (String × Nat)
deriving DecidableEq, Repr

/-! ### JS string and number primitives -/

/-- The ASCII part of the JS whitespace class `\s`. -/
def jsWsChar (c : Char) : Bool :=
  c == ' ' || c == '\t' || c == '\n' || c == '\r' || c == '\x0b' || c == '\x0c'

def jsTrimList (l : List Char) : List Char :=
  ((l.dropWhile jsWsChar).reverse.dropWhile jsWsChar).reverse

/-- JS `String.prototype.trim`. -/
def jsTrim (s : String) : String := String.mk (jsTrimList s.data)

/-- JS `s.startsWith(' ')`. -/
def startsWithSpace (s : String) : Bool := s.data.head? == some ' '

/-- JS `s.endsWith(' ')`. -/
def endsWithSpace (s : String) : Bool := s.data.getLast? == some ' '

def isAsciiLetter (c : Char) : Bool :=
  ('A' ≤ c && c ≤ 'Z') || ('a' ≤ c && c ≤ 'z')

/-- Character class of `/^[A-Za-z0-9_ऀ-ॿ઀-૿ঀ-৿]+$/`. -/
def designationChar (c : Char) : Bool :=
  isAsciiLetter c || c.isDigit || c == '_' ||
  (0x900 ≤ c.toNat && c.toNat ≤ 0x97F) ||
  (0xA80 ≤ c.toNat && c.toNat ≤ 0xAFF) ||
  (0x980 ≤ c.toNat && c.toNat ≤ 0x9FF)

/-- JS `/^[A-Za-z\s]+$/.test s`. -/
def reLettersSpaces (s : String) : Bool :=
  !s.data.isEmpty && s.data.all (fun c => isAsciiLetter c || jsWsChar c)

/-- JS `/^[A-Za-z0-9_]+$/.test s`. -/
def reAlnumUnderscore (s : String) : Bool :=
  !s.data.isEmpty && s.data.all (fun c => isAsciiLetter c || c.isDigit || c == '_')

/-- JS `/^[A-Za-z0-9_ऀ-ॿ઀-૿ঀ-৿]+$/.test s`. -/
def reDesignation (s : String) : Bool :=
  !s.data.isEmpty && s.data.all designationChar

/-- JS `/\s/.test s`. -/
def containsWsStr (s : String) : Bool := s.data.any jsWsChar

/-- JS `/^[6-9]\d{9}$/.test s`. -/
def reMobile (s : String) : Bool :=
  match s.data with
  | c :: rest => ('6' ≤ c && c ≤ '9') && rest.length == 9 && rest.all Char.isDigit
  | [] => false

/-- `DD/MM/YYYY ` followed by the given six time digits with colons. -/
def reDateTime (h1 h2 m1 m2 : Char) (s : String) : Bool :=
  match s.data with
  | [a, b, s1, c, d, s2, e, f, g, h, sp, x1, x2, c1, x3, x4, c2, x5, x6] =>
    a.isDigit && b.isDigit && s1 == '/' && c.isDigit && d.isDigit && s2 == '/' &&
    e.isDigit && f.isDigit && g.isDigit && h.isDigit && sp == ' ' &&
    x1 == h1 && x2 == h2 && c1 == ':' && x3 == m1 && x4 == m2 && c2 == ':' &&
    x5 == '0' && x6 == '0'
  | _ => false

/-- JS `/^\d{2}\/\d{2}\/\d{4} 00:00:00$/.test s`. -/
def reLaunchDate (s : String) : Bool := reDateTime '0' '0' '0' '0' s

/-- JS `/^\d{2}\/\d{2}\/\d{4} 23:59:00$/.test s`. -/
def reCloseDate (s : String) : Bool := reDateTime '2' '3' '5' '9' s

/-- JS `/^Q\d+(\.\d+|\.a|\.1\.a)?$/.test s`. -/
def reQuestionId (s : String) : Bool :=
  match s.data with
  | 'Q' :: rest =>
    let ds := rest.takeWhile Char.isDigit
    let t := rest.dropWhile Char.isDigit
    !ds.isEmpty &&
      (decide (t = []) || decide (t = ['.', 'a']) || decide (t = ['.', '1', '.', 'a']) ||
       (match t with
        | '.' :: u => !u.isEmpty && u.all Char.isDigit
        | _ => false))
  | _ => false

def splitFirstAt (c : Char) : List Char → Option (List Char × List Char)
  | [] => none
  | x :: xs =>
    if x == c then some ([], xs)
    else (splitFirstAt c xs).map (fun p => (x :: p.1, p.2))

def hasInnerDot (l : List Char) : Bool :=
  (List.range l.length).any
    (fun i => decide (0 < i) && decide (i + 1 < l.length) && (l.getD i ' ' == '.'))

/-- JS `/^[^\s@]+@[^\s@]+\.[^\s@]+$/.test s`. -/
def emailOk (s : String) : Bool :=
  match splitFirstAt '@' s.data with
  | none => false
  | some (a, rest) =>
    !a.isEmpty && a.all (fun ch => !jsWsChar ch) &&
    !rest.any (fun ch => ch == '@') && rest.all (fun ch => !jsWsChar ch) &&
    hasInnerDot rest

/-- JS `s.split(/\s+/).length` for an already-trimmed non-empty string:
the number of maximal non-whitespace runs. -/
def wordCount (s : String) : Nat :=
  (s.data.foldl
    (fun (p : Nat × Bool) c =>
      if jsWsChar c then (p.1, false)
      else (if p.2 then p.1 else p.1 + 1, true))
    (0, false)).1

/-- Exact value of a JS number produced by `Number(...)` on the cell
domain: the rational `num / 10 ^ exp` (not normalised). -/
structure JsNum where
  num : Int
  exp : Nat
deriving DecidableEq, Repr

/-- JS `Number.isInteger`. -/
def JsNum.isInt (q : JsNum) : Bool := decide (q.num % ((10 : Int) ^ q.exp) = 0)

/-- The value as an integer (exact when `isInt`). -/
def JsNum.toInt (q : JsNum) : Int := q.num / ((10 : Int) ^ q.exp)

/-- Whether the value is negative. -/
def JsNum.isNeg (q : JsNum) : Bool := decide (q.num < 0)

/-- `a ≤ b` on values. -/
def JsNum.le (a b : JsNum) : Bool :=
  decide (a.num * ((10 : Int) ^ b.exp) ≤ b.num * ((10 : Int) ^ a.exp))

def digitsToNat (l : List Char) : Nat :=
  l.foldl (fun a c => 10 * a + (c.toNat - 48)) 0

/-- Unsigned decimal literal: `digits`, `digits.digits`, `.digits` or
`digits.` (the accepted fragment of the JS `Number` grammar; exponents,
hex and `Infinity` are outside the modelled domain). -/
def parseDecChars (l : List Char) : Option JsNum :=
  let ip := l.takeWhile Char.isDigit
  let rest := l.dropWhile Char.isDigit
  match rest with
  | [] => if ip.isEmpty then none else some ⟨digitsToNat ip, 0⟩
  | '.' :: fp =>
    if fp.all Char.isDigit && !(ip.isEmpty && fp.isEmpty) then
      some ⟨digitsToNat ip * (10 : Int) ^ fp.length + digitsToNat fp, fp.length⟩
    else none
  | _ => none

def parseSignedChars : List Char → Option JsNum
  | '+' :: rest => parseDecChars rest
  | '-' :: rest => (parseDecChars rest).map (fun q => ⟨-q.num, q.exp⟩)
  | l => parseDecChars l

/-- JS `Number(s)` on a string: `none` means `NaN`. -/
def parseJsNumber (s : String) : Option JsNum :=
  let t := jsTrimList s.data
  if t.isEmpty then some ⟨0, 0⟩ else parseSignedChars t

/-- JS `Number(cell)` on a raw cell value. -/
def jsNum : CellValue → Option JsNum
  | .absent => none
  | .num n => some ⟨n, 0⟩
  | .text s => parseJsNumber s

/-! ### Cell access -/

/-- JS `cell.toString()` (with `undefined` collapsing to `''` through
`?.` / `|| ''`). -/
def cellToStr : CellValue → String
  | .absent => ""
  | .num n => toString n
  | .text s => s

/-- JS truthiness of a cell value. -/
def truthy : CellValue → Bool
  | .absent => false
  | .num n => decide (n ≠ 0)
  | .text s => !s.data.isEmpty

def isTextCell : CellValue → Bool
  | .text _ => true
  | _ => false

def textOf : CellValue → String
  | .text s => s
  | _ => ""

/-- The JS test `cell === undefined || cell === null || cell === ''`. -/
def isMissingCell : CellValue → Bool
  | .absent => true
  | .text s => decide (s = "")
  | _ => false

/-- JS `row[i]` (negative or out-of-range index gives `undefined`). -/
def getCell (row : Row) (i : Int) : CellValue :=
  if i < 0 then .absent else row.getD i.toNat .absent

/-- JS `headers.indexOf(col)`. -/
def jsIndexOf : List String → String → Int
  | [], _ => -1
  | h :: t, s =>
    if h == s then 0
    else if jsIndexOf t s < 0 then -1 else jsIndexOf t s + 1

/-- `row[headers.indexOf(col)]`. -/
def cellAt (hdrs : List String) (row : Row) (col : String) : CellValue :=
  getCell row (jsIndexOf hdrs col)

/-- JS `row[headers.indexOf(col)]?.toString().trim() || ''`. -/
def strAt (hdrs : List String) (row : Row) (col : String) : String :=
  jsTrim (cellToStr (cellAt hdrs row col))

/-- JS `headers[i]` as the column label of a whitespace violation
(`""` models `undefined` when the row is longer than the header). -/
def hdrAt (hdrs : List String) (i : Nat) : String := hdrs.getD i ""

/-- JS `headers.indexOf(col) >= 0`. -/
def hasCol (hdrs : List String) (col : String) : Bool :=
  decide (0 ≤ jsIndexOf hdrs col)

def joinComma : List String → String
  | [] => ""
  | [s] => s
  | s :: rest => s ++ ", " ++ joinComma rest

/-! ### The universal whitespace scan (rule U-01) -/

def wsV (pre name : String) (hdrs : List String) (k i : Nat) : Violation :=
  ⟨pre ++ "-WS-" ++ toString k ++ "-" ++ toString i, name, k, hdrAt hdrs i, hdrAt hdrs i,
   "Cell contains leading or trailing whitespace", .error, "U-01"⟩

/-- The per-cell condition
`typeof cell === 'string' && (cell.startsWith(' ') || cell.endsWith(' '))`. -/
def isEdgeSpaceCell : CellValue → Bool
  | .text s => startsWithSpace s || endsWithSpace s
  | _ => false

def wsAux (pre name : String) (hdrs : List String) (k : Nat) : Nat → List CellValue → List Violation
  | _, [] => []
  | i, c :: cs =>
    (if isEdgeSpaceCell c then [wsV pre name hdrs k i] else []) ++
      wsAux pre name hdrs k (i + 1) cs

/-- The `row.forEach` whitespace scan shared by all four rule sets. -/
def wsViolations (pre name : String) (hdrs : List String) (k : Nat) (row : Row) : List Violation :=
  wsAux pre name hdrs k 0 row

/-! ### Generic stateful row scan -/

/-- The `sheet.data.slice(1).forEach((row, index) => ...)` loop shape:
per-row violations plus a threaded accumulator (`u`), row numbers starting
at 2. -/
def scanRows {σ : Type} (f : σ → Nat → Row → List Violation) (u : σ → Row → σ) :
    σ → Nat → List Row → List Violation
  | _, _, [] => []
  | s, n, r :: rs => f s n r ++ scanRows f u (u s r) (n + 1) rs

/-! ### Designation Mapping rule set -/

def expectedSheets : List String :=
  ["Designation Mapping", "Survey Master", "Question Master", "Access Sheet"]

def dmRequiredColumns : List String :=
  ["State", "Medium", "Medium_in_english", "List of Designations", "Hierarchical Level"]

def dm00V (name : String) (n : Nat) : Violation :=
  ⟨"DM-COLCOUNT", name, 1, "Headers", "Column Count",
   "Expected exactly 5 columns, found " ++ toString n, .error, "DM-00"⟩

def dm01V (name : String) (missing : List String) : Violation :=
  ⟨"DM-COLS", name, 1, "Headers", "Required Columns",
   "Missing required columns: " ++ joinComma missing, .error, "DM-01"⟩

def dmMissingColumns (hdrs : List String) : List String :=
  dmRequiredColumns.filter (fun c => !hdrs.contains c)

def dmHeaderViolations (sheet : Sheet) : List Violation :=
  (if sheet.headers.length = 5 then [] else [dm00V sheet.name sheet.headers.length]) ++
  (if (dmMissingColumns sheet.headers).isEmpty then []
   else [dm01V sheet.name (dmMissingColumns sheet.headers)])

def dm02V (name : String) (k : Nat) : Violation :=
  ⟨"DM-STATE-" ++ toString k, name, k, "State", "State",
   "State is mandatory", .error, "DM-02"⟩

def dm03V (name : String) (k : Nat) : Violation :=
  ⟨"DM-STATE-FORMAT-" ++ toString k, name, k, "State", "State",
   "State must contain only English letters and spaces", .error, "DM-03"⟩

def dm04V (name : String) (k : Nat) : Violation :=
  ⟨"DM-MEDIUM-" ++ toString k, name, k, "Medium", "Medium",
   "Medium is mandatory", .error, "DM-04"⟩

def dm05V (name : String) (k : Nat) : Violation :=
  ⟨"DM-MEDIUMENG-" ++ toString k, name, k, "Medium_in_english", "Medium_in_english",
   "Medium_in_english is mandatory", .error, "DM-05"⟩

def dm06V (name : String) (k : Nat) : Violation :=
  ⟨"DM-DESIGNATIONS-" ++ toString k, name, k, "List of Designations", "List of Designations",
   "List of Designations is mandatory", .error, "DM-06"⟩

def dm07V (name : String) (k : Nat) : Violation :=
  ⟨"DM-DESIGNATIONS-FORMAT-" ++ toString k, name, k, "List of Designations", "List of Designations",
   "List of Designations must be alphanumeric with only underscore (_) as special character",
   .error, "DM-07"⟩

def dm08V (name : String) (k : Nat) : Violation :=
  ⟨"DM-HIERARCHY-" ++ toString k, name, k, "Hierarchical Level", "Hierarchical Level",
   "Hierarchical Level is mandatory", .error, "DM-08"⟩

def dm09V (name : String) (k : Nat) : Violation :=
  ⟨"DM-HIERARCHY-FORMAT-" ++ toString k, name, k, "Hierarchical Level", "Hierarchical Level",
   "Hierarchical Level must be a numeric value from 0 to positive numbers only",
   .error, "DM-09"⟩

def dmStateCheck (name : String) (k : Nat) (c : CellValue) : List Violation :=
  if !truthy c then [dm02V name k]
  else if !isTextCell c || !reLettersSpaces (textOf c) then [dm03V name k]
  else []

def dmMediumCheck (name : String) (k : Nat) (c : CellValue) : List Violation :=
  if !truthy c then [dm04V name k] else []

def dmMediumEngCheck (name : String) (k : Nat) (c : CellValue) : List Violation :=
  if !truthy c then [dm05V name k] else []

def dmDesignationsCheck (name : String) (k : Nat) (c : CellValue) : List Violation :=
  if !truthy c then [dm06V name k]
  else if isTextCell c && !reDesignation (textOf c) then [dm07V name k]
  else []

def dmLevelCheck (name : String) (k : Nat) (c : CellValue) : List Violation :=
  if isMissingCell c then [dm08V name k]
  else
    match jsNum c with
    | none => [dm09V name k]
    | some q => if q.isNeg || !q.isInt then [dm09V name k] else []

/-- The field-specific checks of one Designation Mapping data row (the part
of the row loop after the whitespace scan). -/
def dmRowRest (name : String) (hdrs : List String) (k : Nat) (row : Row) : List Violation :=
  dmStateCheck name k (cellAt hdrs row "State") ++
  dmMediumCheck name k (cellAt hdrs row "Medium") ++
  dmMediumEngCheck name k (cellAt hdrs row "Medium_in_english") ++
  dmDesignationsCheck name k (cellAt hdrs row "List of Designations") ++
  dmLevelCheck name k (cellAt hdrs row "Hierarchical Level")

def dmRowViolations (name : String) (hdrs : List String) (k : Nat) (row : Row) : List Violation :=
  wsViolations "DM" name hdrs k row ++ dmRowRest name hdrs k row

/-- The entry pushed into `hierarchicalLevels[level]` by a row whose
`Hierarchical Level` survives the mandatory and format checks: the integer
level together with the raw `Medium` cell. -/
def dmValidLevel (hdrs : List String) (row : Row) : Option (Int × CellValue) :=
  let c := cellAt hdrs row "Hierarchical Level"
  if isMissingCell c then none
  else
    match jsNum c with
    | none => none
    | some q =>
      if q.isNeg || !q.isInt then none
      else some (q.toInt, cellAt hdrs row "Medium")

def dmLevels (sheet : Sheet) : List (Int × CellValue) :=
  (sheet.data.drop 1).filterMap (dmValidLevel sheet.headers)

def dmEntriesFor (sheet : Sheet) (k : Int) : List (Int × CellValue) :=
  (dmLevels sheet).filter (fun e => decide (e.1 = k))

/-- The keys of the `hierarchicalLevels` object: one per distinct level,
iterated in ascending numeric order (JS array-index key order; the tracked
levels are non-negative integers). -/
def dmLevelKeys (sheet : Sheet) : List Int :=
  List.insertionSort (· ≤ ·) ((dmLevels sheet).map Prod.fst).dedup

def dm10V (name : String) (k : Int) : Violation :=
  ⟨"DM-HIERARCHY-DUP-" ++ toString k, name, 0, "Hierarchical Level", "Hierarchical Level",
   "Hierarchical Level " ++ toString k ++ " appears more than twice", .error, "DM-10"⟩

def dm11V (name : String) (k : Int) : Violation :=
  ⟨"DM-HIERARCHY-SAME-MEDIUM-" ++ toString k, name, 0, "Hierarchical Level", "Hierarchical Level",
   "Hierarchical Level " ++ toString k ++ " has duplicate entries with same medium",
   .error, "DM-11"⟩

def dmDupBlock (sheet : Sheet) (k : Int) : List Violation :=
  match dmEntriesFor sheet k with
  | _ :: _ :: _ :: _ => [dm10V sheet.name k]
  | [e1, e2] => if decide (e1.2 = e2.2) then [dm11V sheet.name k] else []
  | _ => []

def validateDesignationMappingSheet (sheet : Sheet) : List Violation :=
  dmHeaderViolations sheet ++
  scanRows (fun _ => dmRowViolations sheet.name sheet.headers) (fun _ _ => ()) () 2
    (sheet.data.drop 1) ++
  (dmLevelKeys sheet).flatMap (dmDupBlock sheet)

/-! ### Survey Master rule set -/

def smRequiredColumns : List String :=
  ["Survey ID", "Survey Name", "Survey Description", "Available_mediums",
   "Hierarchical Access Level", "In School", "Accept multiple Entries", "Launch Date",
   "Close Date", "Mode", "Visible_on_report_bot", "Is Active?", "Download_response",
   "Geo Fencing", "Geo Tagging", "Test Survey"]

def smMissingColV (name col : String) : Violation :=
  ⟨"missing-col-" ++ col, name, 1, col, "Required Column",
   "Missing required column: " ++ col, .error, "SURVEY_MASTER_001"⟩

def smHeaderViolations (sheet : Sheet) : List Violation :=
  smRequiredColumns.filterMap
    (fun col => if sheet.headers.contains col then none else some (smMissingColV sheet.name col))

def sm01V (name : String) (k : Nat) : Violation :=
  ⟨"SM-SURVEYID-EMPTY-" ++ toString k, name, k, "Survey ID", "Survey ID",
   "Survey ID is mandatory", .error, "SM-01"⟩

def sm02V (name : String) (k : Nat) (sid : String) : Violation :=
  ⟨"duplicate-survey-id-" ++ toString k, name, k, "Survey ID", "Survey ID",
   "Duplicate Survey ID: " ++ sid, .error, "SM-02"⟩

def sm03V (name : String) (k : Nat) : Violation :=
  ⟨"invalid-survey-id-format-" ++ toString k, name, k, "Survey ID", "Survey ID",
   "Survey ID must be alphanumeric with underscore only, no spaces", .error, "SM-03"⟩

def smSurveyIdCheck (name : String) (hdrs : List String) (ids : List String) (k : Nat)
    (row : Row) : List Violation :=
  if !hasCol hdrs "Survey ID" then []
  else
    let sid := strAt hdrs row "Survey ID"
    if sid = "" then [sm01V name k]
    else
      (if ids.contains sid then [sm02V name k sid] else []) ++
      (if !reAlnumUnderscore sid || containsWsStr sid then [sm03V name k] else [])

def sm04V (name : String) (k : Nat) : Violation :=
  ⟨"SM-NAME-EMPTY-" ++ toString k, name, k, "Survey Name", "Survey Name",
   "Survey Name is mandatory", .error, "SM-04"⟩

def smSurveyNameCheck (name : String) (hdrs : List String) (k : Nat) (row : Row) :
    List Violation :=
  if !hasCol hdrs "Survey Name" then []
  else if strAt hdrs row "Survey Name" = "" then [sm04V name k]
  else []

def sm05V (name : String) (k w : Nat) : Violation :=
  ⟨"SM-DESC-WORDS-" ++ toString k, name, k, "Survey Description", "Survey Description",
   "Survey Description exceeds 60 words limit (" ++ toString w ++ " words)", .error, "SM-05"⟩

def smDescCheck (name : String) (hdrs : List String) (k : Nat) (row : Row) : List Violation :=
  if !hasCol hdrs "Survey Description" then []
  else
    let d := strAt hdrs row "Survey Description"
    if d = "" then []
    else if 60 < wordCount d then [sm05V name k (wordCount d)] else []

def sm06V (name : String) (k : Nat) : Violation :=
  ⟨"SM-MEDIUMS-SPACES-" ++ toString k, name, k, "Available_mediums", "Available_mediums",
   "Available_mediums must be comma separated with no spaces", .error, "SM-06"⟩

def smMediumsCheck (name : String) (hdrs : List String) (k : Nat) (row : Row) : List Violation :=
  if !hasCol hdrs "Available_mediums" then []
  else
    let v := strAt hdrs row "Available_mediums"
    if v ≠ "" && containsWsStr v then [sm06V name k] else []

def sm07V (name : String) (k : Nat) : Violation :=
  ⟨"SM-HIERARCHY-SPACES-" ++ toString k, name, k, "Hierarchical Access Level",
   "Hierarchical Access Level",
   "Hierarchical Access Level must be comma separated with no spaces", .error, "SM-07"⟩

def smHALCheck (name : String) (hdrs : List String) (k : Nat) (row : Row) : List Violation :=
  if !hasCol hdrs "Hierarchical Access Level" then []
  else
    let v := strAt hdrs row "Hierarchical Access Level"
    if v ≠ "" && containsWsStr v then [sm07V name k] else []

def sm08V (name : String) (k : Nat) : Violation :=
  ⟨"SM-LAUNCH-EMPTY-" ++ toString k, name, k, "Launch Date", "Launch Date",
   "Launch Date is mandatory", .error, "SM-08"⟩

def sm09V (name : String) (k : Nat) : Violation :=
  ⟨"SM-LAUNCH-FORMAT-" ++ toString k, name, k, "Launch Date", "Launch Date",
   "Launch Date must be in DD/MM/YYYY 00:00:00 format", .error, "SM-09"⟩

def smLaunchCheck (name : String) (hdrs : List String) (k : Nat) (row : Row) : List Violation :=
  if !hasCol hdrs "Launch Date" then []
  else
    let v := strAt hdrs row "Launch Date"
    if v = "" then [sm08V name k]
    else if !reLaunchDate v then [sm09V name k] else []

def sm10V (name : String) (k : Nat) : Violation :=
  ⟨"SM-CLOSE-FORMAT-" ++ toString k, name, k, "Close Date", "Close Date",
   "Close Date must be in DD/MM/YYYY 23:59:00 format", .error, "SM-10"⟩

def smCloseCheck (name : String) (hdrs : List String) (k : Nat) (row : Row) : List Violation :=
  if !hasCol hdrs "Close Date" then []
  else
    let v := strAt hdrs row "Close Date"
    if v ≠ "" && !reCloseDate v then [sm10V name k] else []

def smModes : List String := ["New Data", "Correction", "delete data", "None"]

def sm11V (name : String) (k : Nat) : Violation :=
  ⟨"SM-MODE-INVALID-" ++ toString k, name, k, "Mode", "Mode",
   "Mode must be one of: New Data, Correction, delete data, None", .error, "SM-11"⟩

def smModeCheck (name : String) (hdrs : List String) (k : Nat) (row : Row) : List Violation :=
  if !hasCol hdrs "Mode" then []
  else
    let v := strAt hdrs row "Mode"
    if v ≠ "" && !smModes.contains v then [sm11V name k] else []

def smYesNoFields : List String :=
  ["In School", "Accept multiple Entries", "Visible_on_report_bot", "Is Active?",
   "Download_response", "Geo Tagging"]

def sm12V (name : String) (k : Nat) (field : String) : Violation :=
  ⟨"invalid-yes-no-" ++ field ++ "-" ++ toString k, name, k, field, field,
   field ++ " must be exactly \x27Yes\x27 or \x27No\x27", .error, "SM-12"⟩

def smYesNoCheck (name : String) (hdrs : List String) (k : Nat) (row : Row) : List Violation :=
  smYesNoFields.flatMap
    (fun field =>
      if !hasCol hdrs field then []
      else
        let v := strAt hdrs row field
        if v ≠ "" && !(["Yes", "No"].contains v) then [sm12V name k field] else [])

def sm13V (name : String) (k : Nat) : Violation :=
  ⟨"SM-GEOFENCING-" ++ toString k, name, k, "Geo Fencing", "Geo Fencing",
   "Geo Fencing must be \"No\" only", .error, "SM-13"⟩

def smGeoFencingCheck (name : String) (hdrs : List String) (k : Nat) (row : Row) :
    List Violation :=
  if !hasCol hdrs "Geo Fencing" then []
  else
    let v := strAt hdrs row "Geo Fencing"
    if v ≠ "" && v ≠ "No" then [sm13V name k] else []

def sm14V (name : String) (k : Nat) : Violation :=
  ⟨"SM-TESTSURVEY-" ++ toString k, name, k, "Test Survey", "Test Survey",
   "Test Survey must be \"No\" only", .error, "SM-14"⟩

def smTestSurveyCheck (name : String) (hdrs : List String) (k : Nat) (row : Row) :
    List Violation :=
  if !hasCol hdrs "Test Survey" then []
  else
    let v := strAt hdrs row "Test Survey"
    if v ≠ "" && v ≠ "No" then [sm14V name k] else []

/-- The field-specific checks of one Survey Master data row. -/
def smRowRest (name : String) (hdrs : List String) (ids : List String) (k : Nat)
    (row : Row) : List Violation :=
  smSurveyIdCheck name hdrs ids k row ++
  smSurveyNameCheck name hdrs k row ++
  smDescCheck name hdrs k row ++
  smMediumsCheck name hdrs k row ++
  smHALCheck name hdrs k row ++
  smLaunchCheck name hdrs k row ++
  smCloseCheck name hdrs k row ++
  smModeCheck name hdrs k row ++
  smYesNoCheck name hdrs k row ++
  smGeoFencingCheck name hdrs k row ++
  smTestSurveyCheck name hdrs k row

def smRowViolations (name : String) (hdrs : List String) (ids : List String) (k : Nat)
    (row : Row) : List Violation :=
  wsViolations "SM" name hdrs k row ++ smRowRest name hdrs ids k row

/-- The `surveyIds.add(surveyId)` accumulator step. -/
def smUpd (hdrs : List String) (ids : List String) (row : Row) : List String :=
  if !hasCol hdrs "Survey ID" then ids
  else
    let sid := strAt hdrs row "Survey ID"
    if sid ≠ "" && !ids.contains sid then ids ++ [sid] else ids

def validateSurveyMasterSheet (sheet : Sheet) : List Violation :=
  smHeaderViolations sheet ++
  scanRows (smRowViolations sheet.name sheet.headers) (smUpd sheet.headers) [] 2
    (sheet.data.drop 1)

/-! ### Question Master rule set -/

def qm01V (name : String) (k : Nat) : Violation :=
  ⟨"QM-SURVEYID-EMPTY-" ++ toString k, name, k, "Survey ID", "Survey ID",
   "Survey ID is mandatory", .error, "QM-01"⟩

def qm02V (name : String) (k : Nat) : Violation :=
  ⟨"QM-MEDIUM-EMPTY-" ++ toString k, name, k, "Medium", "Medium",
   "Medium is mandatory", .error, "QM-02"⟩

def qm03V (name : String) (k : Nat) : Violation :=
  ⟨"QM-MEDIUMENG-EMPTY-" ++ toString k, name, k, "Medium_in_english", "Medium_in_english",
   "Medium_in_english is mandatory", .error, "QM-03"⟩

def qmMandCheck (v : Violation) (hdrs : List String) (col : String) (row : Row) :
    List Violation :=
  if !hasCol hdrs col then []
  else if strAt hdrs row col = "" then [v]
  else []

def qm04V (name : String) (k : Nat) : Violation :=
  ⟨"QM-QUESTIONID-EMPTY-" ++ toString k, name, k, "Question_ID", "Question_ID",
   "Question_ID is mandatory and cannot be empty", .error, "QM-04"⟩

def qm05V (name : String) (k : Nat) (qid : String) : Violation :=
  ⟨"duplicate-question-id-" ++ toString k, name, k, "Question_ID", "Question_ID",
   "Duplicate Question ID: " ++ qid, .error, "QM-05"⟩

def qm06V (name : String) (k : Nat) : Violation :=
  ⟨"invalid-question-id-format-" ++ toString k, name, k, "Question_ID", "Question_ID",
   "Question ID must follow format Q1, Q2, Q1.1, Q2.a, Q2.1.a", .error, "QM-06"⟩

def qmQuestionIdCheck (name : String) (hdrs : List String) (ids : List String) (k : Nat)
    (row : Row) : List Violation :=
  if !hasCol hdrs "Question_ID" then []
  else
    let qid := strAt hdrs row "Question_ID"
    if qid = "" then [qm04V name k]
    else
      (if ids.contains qid then [qm05V name k qid] else []) ++
      (if !reQuestionId qid then [qm06V name k] else [])

def qmTypes : List String :=
  ["Multiple Choice Single Select", "Multiple Choice Multi Select", "Drop Down",
   "Text Response", "Tabular Text Input", "Tabular Drop Down", "Tabular Check Box",
   "Image Upload", "Video Upload", "Likert Scale", "Calendar"]

def qm07V (name : String) (k : Nat) : Violation :=
  ⟨"QM-QUESTIONTYPE-EMPTY-" ++ toString k, name, k, "Question Type", "Question Type",
   "Question Type is mandatory", .error, "QM-07"⟩

def qm08V (name : String) (k : Nat) : Violation :=
  ⟨"QM-QUESTIONTYPE-INVALID-" ++ toString k, name, k, "Question Type", "Question Type",
   "Question Type must be one of the predefined types: " ++ joinComma qmTypes,
   .error, "QM-08"⟩

def qmTypeCheck (name : String) (hdrs : List String) (k : Nat) (row : Row) : List Violation :=
  if !hasCol hdrs "Question Type" then []
  else
    let t := strAt hdrs row "Question Type"
    if t = "" then [qm07V name k]
    else if !qmTypes.contains t then [qm08V name k]
    else []

def qm09V (name : String) (k : Nat) : Violation :=
  ⟨"QM-ISDYNAMIC-" ++ toString k, name, k, "IsDynamic", "IsDynamic",
   "IsDynamic must be empty", .error, "QM-09"⟩

def qmIsDynamicCheck (name : String) (hdrs : List String) (k : Nat) (row : Row) :
    List Violation :=
  if !hasCol hdrs "IsDynamic" then []
  else if strAt hdrs row "IsDynamic" ≠ "" then [qm09V name k]
  else []

def qm10V (name : String) (k : Nat) : Violation :=
  ⟨"QM-QUESTIONDESC-LENGTH-" ++ toString k, name, k, "Question_Description_Optional",
   "Question_Description_Optional",
   "Question Description Optional exceeds 256 character limit", .error, "QM-10"⟩

def qmDescCheck (name : String) (hdrs : List String) (k : Nat) (row : Row) : List Violation :=
  if !hasCol hdrs "Question_Description_Optional" then []
  else
    let d := strAt hdrs row "Question_Description_Optional"
    if d ≠ "" && decide (256 < d.data.length) then [qm10V name k] else []

def qm11V (name : String) (k : Nat) : Violation :=
  ⟨"QM-MAXMIN-INVALID-" ++ toString k, name, k, "Max_Value", "Max_Value",
   "Max_Value must be greater than Min_Value", .error, "QM-11"⟩

def qmMaxMinCheck (name : String) (hdrs : List String) (k : Nat) (row : Row) : List Violation :=
  if !(hasCol hdrs "Max_Value" && hasCol hdrs "Min_Value") then []
  else
    let mx := strAt hdrs row "Max_Value"
    let mn := strAt hdrs row "Min_Value"
    if mx ≠ "" && mn ≠ "" then
      match parseJsNumber mx, parseJsNumber mn with
      | some a, some b => if a.le b then [qm11V name k] else []
      | _, _ => []
    else []

def qm12V (name : String) (k : Nat) : Violation :=
  ⟨"QM-ISMANDATORY-INVALID-" ++ toString k, name, k, "Is Mandatory", "Is Mandatory",
   "Is Mandatory must be exactly \"Yes\" or \"No\"", .error, "QM-12"⟩

def qmIsMandatoryCheck (name : String) (hdrs : List String) (k : Nat) (row : Row) :
    List Violation :=
  if !hasCol hdrs "Is Mandatory" then []
  else
    let v := strAt hdrs row "Is Mandatory"
    if v ≠ "" && !(["Yes", "No"].contains v) then [qm12V name k] else []

def qmTabularTypes : List String := ["Tabular Text Input", "Tabular Drop Down", "Tabular Check Box"]

def qm13V (name : String) (k : Nat) : Violation :=
  ⟨"QM-TABLEHEADER-MISSING-" ++ toString k, name, k, "Table_Header_value", "Table_Header_value",
   "Table_Header_value is mandatory for Tabular question types", .error, "QM-13"⟩

def qm14V (name : String) (k : Nat) : Violation :=
  ⟨"QM-TABLEHEADER-UNEXPECTED-" ++ toString k, name, k, "Table_Header_value",
   "Table_Header_value",
   "Table_Header_value must be blank for non-tabular question types", .error, "QM-14"⟩

def qmTableHeaderCheck (name : String) (hdrs : List String) (k : Nat) (row : Row) :
    List Violation :=
  if !(hasCol hdrs "Table_Header_value" && hasCol hdrs "Question Type") then []
  else
    let th := strAt hdrs row "Table_Header_value"
    let qt := strAt hdrs row "Question Type"
    if qmTabularTypes.contains qt && th = "" then [qm13V name k]
    else if !qmTabularTypes.contains qt && th ≠ "" then [qm14V name k]
    else []

def qmModes : List String := ["New Data", "Correction", "Delete Data", "None"]

def qm15V (name : String) (k : Nat) : Violation :=
  ⟨"QM-MODE-INVALID-" ++ toString k, name, k, "Mode", "Mode",
   "Mode must be one of: New Data, Correction, Delete Data, None", .error, "QM-15"⟩

def qmModeCheck (name : String) (hdrs : List String) (k : Nat) (row : Row) : List Violation :=
  if !hasCol hdrs "Mode" then []
  else
    let v := strAt hdrs row "Mode"
    if v ≠ "" && !qmModes.contains v then [qm15V name k] else []

def qm16V (name : String) (k : Nat) : Violation :=
  ⟨"QM-MEDIATYPE-EMPTY-" ++ toString k, name, k, "Question_Media_Type", "Question_Media_Type",
   "Question_Media_Type cannot be empty. Use \"None\" if no media", .error, "QM-16"⟩

def qm17V (name : String) (k : Nat) : Violation :=
  ⟨"QM-MEDIATYPE-INVALID-" ++ toString k, name, k, "Question_Media_Type", "Question_Media_Type",
   "Question_Media_Type must be \"None\" for all questions", .error, "QM-17"⟩

def qmMediaTypeCheck (name : String) (hdrs : List String) (k : Nat) (row : Row) :
    List Violation :=
  if !hasCol hdrs "Question_Media_Type" then []
  else
    let v := strAt hdrs row "Question_Media_Type"
    if v = "" then [qm16V name k]
    else if v ≠ "None" then [qm17V name k]
    else []

def qm18V (name : String) (k : Nat) : Violation :=
  ⟨"QM-CORRECTANSWER-" ++ toString k, name, k, "Correct_Answer_Optional",
   "Correct_Answer_Optional", "Correct_Answer_Optional must be empty", .error, "QM-18"⟩

def qmCorrectAnswerCheck (name : String) (hdrs : List String) (k : Nat) (row : Row) :
    List Violation :=
  if !hasCol hdrs "Correct_Answer_Optional" then []
  else if strAt hdrs row "Correct_Answer_Optional" ≠ "" then [qm18V name k]
  else []

def qm19V (name : String) (k : Nat) : Violation :=
  ⟨"QM-CHILDRENQUESTIONS-" ++ toString k, name, k, "Children Questions", "Children Questions",
   "Children Questions must be empty", .error, "QM-19"⟩

def qmChildrenCheck (name : String) (hdrs : List String) (k : Nat) (row : Row) :
    List Violation :=
  if !hasCol hdrs "Children Questions" then []
  else if strAt hdrs row "Children Questions" ≠ "" then [qm19V name k]
  else []

/-- The field-specific checks of one Question Master data row. -/
def qmRowRest (name : String) (hdrs : List String) (ids : List String) (k : Nat)
    (row : Row) : List Violation :=
  qmMandCheck (qm01V name k) hdrs "Survey ID" row ++
  qmMandCheck (qm02V name k) hdrs "Medium" row ++
  qmMandCheck (qm03V name k) hdrs "Medium_in_english" row ++
  qmQuestionIdCheck name hdrs ids k row ++
  qmTypeCheck name hdrs k row ++
  qmIsDynamicCheck name hdrs k row ++
  qmDescCheck name hdrs k row ++
  qmMaxMinCheck name hdrs k row ++
  qmIsMandatoryCheck name hdrs k row ++
  qmTableHeaderCheck name hdrs k row ++
  qmModeCheck name hdrs k row ++
  qmMediaTypeCheck name hdrs k row ++
  qmCorrectAnswerCheck name hdrs k row ++
  qmChildrenCheck name hdrs k row

def qmRowViolations (name : String) (hdrs : List String) (ids : List String) (k : Nat)
    (row : Row) : List Violation :=
  wsViolations "QM" name hdrs k row ++ qmRowRest name hdrs ids k row

def qmUpd (hdrs : List String) (ids : List String) (row : Row) : List String :=
  if !hasCol hdrs "Question_ID" then ids
  else
    let qid := strAt hdrs row "Question_ID"
    if qid ≠ "" && !ids.contains qid then ids ++ [qid] else ids

def validateQuestionMasterSheet (sheet : Sheet) : List Violation :=
  scanRows (qmRowViolations sheet.name sheet.headers) (qmUpd sheet.headers) [] 2
    (sheet.data.drop 1)

/-! ### Access Sheet rule set -/

def asRequiredColumns : List String :=
  ["Designation", "Hierarchical Level", "Bot ID", "State", "Name", "User ID", "Status"]

def asMissingColV (name col : String) : Violation :=
  ⟨"missing-col-" ++ col, name, 1, col, "Required Column",
   "Missing required column: " ++ col, .error, "ACCESS_SHEET_001"⟩

def asHeaderViolations (sheet : Sheet) : List Violation :=
  asRequiredColumns.filterMap
    (fun col => if sheet.headers.contains col then none else some (asMissingColV sheet.name col))

def as01V (name : String) (k : Nat) : Violation :=
  ⟨"AS-DESIGNATION-EMPTY-" ++ toString k, name, k, "Designation", "Designation",
   "Designation is mandatory", .error, "AS-01"⟩

def asDesignationCheck (name : String) (hdrs : List String) (k : Nat) (row : Row) :
    List Violation :=
  if !hasCol hdrs "Designation" then []
  else if strAt hdrs row "Designation" = "" then [as01V name k]
  else []

def as02V (name : String) (k : Nat) : Violation :=
  ⟨"AS-HIERARCHY-EMPTY-" ++ toString k, name, k, "Hierarchical Level", "Hierarchical Level",
   "Hierarchical Level is mandatory", .error, "AS-02"⟩

def as03V (name : String) (k : Nat) : Violation :=
  ⟨"AS-HIERARCHY-FORMAT-" ++ toString k, name, k, "Hierarchical Level", "Hierarchical Level",
   "Hierarchical Level must be a numeric value, not text or special characters",
   .error, "AS-03"⟩

def asLevelCheck (name : String) (hdrs : List String) (k : Nat) (row : Row) : List Violation :=
  if !hasCol hdrs "Hierarchical Level" then []
  else
    let v := strAt hdrs row "Hierarchical Level"
    if v = "" then [as02V name k]
    else
      match parseJsNumber v with
      | none => [as03V name k]
      | some q => if !q.isInt then [as03V name k] else []

def as04V (name : String) (k : Nat) : Violation :=
  ⟨"AS-BOTID-ATTENTION-" ++ toString k, name, k, "Bot ID", "Bot ID",
   "Bot ID is filled - attention needed", .warning, "AS-04"⟩

def asBotIdCheck (name : String) (hdrs : List String) (k : Nat) (row : Row) : List Violation :=
  if !hasCol hdrs "Bot ID" then []
  else if strAt hdrs row "Bot ID" ≠ "" then [as04V name k]
  else []

def as05V (name : String) (k : Nat) : Violation :=
  ⟨"AS-STATE-EMPTY-" ++ toString k, name, k, "State", "State",
   "State is mandatory", .error, "AS-05"⟩

def asStateCheck (name : String) (hdrs : List String) (k : Nat) (row : Row) : List Violation :=
  if !hasCol hdrs "State" then []
  else if strAt hdrs row "State" = "" then [as05V name k]
  else []

def as06V (name : String) (k : Nat) : Violation :=
  ⟨"AS-NAME-EMPTY-" ++ toString k, name, k, "Name", "Name",
   "Name is mandatory", .error, "AS-06"⟩

def as07V (name : String) (k : Nat) : Violation :=
  ⟨"AS-NAME-FORMAT-" ++ toString k, name, k, "Name", "Name",
   "Name must be alpha, numeric or alphanumeric with underscore (_) only", .error, "AS-07"⟩

def asNameCheck (name : String) (hdrs : List String) (k : Nat) (row : Row) : List Violation :=
  if !hasCol hdrs "Name" then []
  else
    let v := strAt hdrs row "Name"
    if v = "" then [as06V name k]
    else if !reDesignation v then [as07V name k]
    else []

def as08V (name : String) (k : Nat) : Violation :=
  ⟨"AS-USERID-EMPTY-" ++ toString k, name, k, "User ID", "User ID",
   "User ID is mandatory", .error, "AS-08"⟩

def as09V (name : String) (k : Nat) (uid : String) : Violation :=
  ⟨"AS-USERID-DUPLICATE-" ++ toString k, name, k, "User ID", "User ID",
   "Duplicate User ID: " ++ uid ++ ". Each User ID must be unique across the entire dataset",
   .error, "AS-09"⟩

def asUserIdCheck (name : String) (hdrs : List String) (uids : List String) (k : Nat)
    (row : Row) : List Violation :=
  if !hasCol hdrs "User ID" then []
  else
    let uid := strAt hdrs row "User ID"
    if uid = "" then [as08V name k]
    else if uids.contains uid then [as09V name k uid]
    else []

def as10V (name : String) (k : Nat) : Violation :=
  ⟨"AS-STATUS-EMPTY-" ++ toString k, name, k, "Status", "Status",
   "Status is mandatory", .error, "AS-10"⟩

def as11V (name : String) (k : Nat) : Violation :=
  ⟨"AS-STATUS-INVALID-" ++ toString k, name, k, "Status", "Status",
   "Status must be exactly \"Active\" or \"Inactive\"", .error, "AS-11"⟩

def asStatusCheck (name : String) (hdrs : List String) (k : Nat) (row : Row) : List Violation :=
  if !hasCol hdrs "Status" then []
  else
    let v := strAt hdrs row "Status"
    if v = "" then [as10V name k]
    else if !(["Active", "Inactive"].contains v) then [as11V name k]
    else []

def as12V (name : String) (k : Nat) : Violation :=
  ⟨"AS-MOBILE-FORMAT-" ++ toString k, name, k, "Mobile", "Mobile",
   "Mobile number must be 10 digits starting with 6-9", .error, "AS-12"⟩

def as13V (name : String) (k : Nat) (state mobile : String) : Violation :=
  ⟨"AS-STATEMOBILE-DUPLICATE-" ++ toString k, name, k, "Mobile", "Mobile",
   "Duplicate (State, Mobile) combination: " ++ state ++ ", " ++ mobile, .error, "AS-13"⟩

def asMobileCheck (name : String) (hdrs : List String) (pairs : List String) (k : Nat)
    (row : Row) : List Violation :=
  if !(hasCol hdrs "Mobile" && truthy (cellAt hdrs row "Mobile")) then []
  else
    let mobile := jsTrim (cellToStr (cellAt hdrs row "Mobile"))
    let state := strAt hdrs row "State"
    if !reMobile mobile then [as12V name k]
    else if pairs.contains (state ++ "-" ++ mobile) then [as13V name k state mobile]
    else []

def as14V (name : String) (k : Nat) : Violation :=
  ⟨"AS-EMAIL-FORMAT-" ++ toString k, name, k, "Email", "Email",
   "Invalid email format", .warning, "AS-14"⟩

def asEmailCheck (name : String) (hdrs : List String) (k : Nat) (row : Row) : List Violation :=
  if !(hasCol hdrs "Email" && truthy (cellAt hdrs row "Email")) then []
  else
    let email := jsTrim (cellToStr (cellAt hdrs row "Email"))
    if email ≠ "" && !emailOk email then [as14V name k] else []

/-- The field-specific checks of one Access Sheet data row. -/
def asRowRest (name : String) (hdrs : List String) (st : List String × List String)
    (k : Nat) (row : Row) : List Violation :=
  asDesignationCheck name hdrs k row ++
  asLevelCheck name hdrs k row ++
  asBotIdCheck name hdrs k row ++
  asStateCheck name hdrs k row ++
  asNameCheck name hdrs k row ++
  asUserIdCheck name hdrs st.1 k row ++
  asStatusCheck name hdrs k row ++
  asMobileCheck name hdrs st.2 k row ++
  asEmailCheck name hdrs k row

def asRowViolations (name : String) (hdrs : List String) (st : List String × List String)
    (k : Nat) (row : Row) : List Violation :=
  wsViolations "AS" name hdrs k row ++ asRowRest name hdrs st k row

/-- Accumulator step for `userIds` and `stateMobilePairs`. -/
def asUpd (hdrs : List String) (st : List String × List String) (row : Row) :
    List String × List String :=
  let uids :=
    if !hasCol hdrs "User ID" then st.1
    else
      let uid := strAt hdrs row "User ID"
      if uid ≠ "" && !st.1.contains uid then st.1 ++ [uid] else st.1
  let pairs :=
    if !(hasCol hdrs "Mobile" && truthy (cellAt hdrs row "Mobile")) then st.2
    else
      let mobile := jsTrim (cellToStr (cellAt hdrs row "Mobile"))
      let state := strAt hdrs row "State"
      if reMobile mobile && !st.2.contains (state ++ "-" ++ mobile) then
        st.2 ++ [state ++ "-" ++ mobile]
      else st.2
  (uids, pairs)

def validateAccessSheet (sheet : Sheet) : List Violation :=
  asHeaderViolations sheet ++
  scanRows (asRowViolations sheet.name sheet.headers) (asUpd sheet.headers) ([], []) 2
    (sheet.data.drop 1)

/-! ### Dispatcher, structural checks, aggregation -/

def sheetEmptyV (name : String) : Violation :=
  ⟨"empty-sheet-" ++ name, name, 0, "", "Sheet Data", "Sheet is empty", .error,
   "SHEET_EMPTY_001"⟩

def headersV (name : String) : Violation :=
  ⟨"no-headers-" ++ name, name, 1, "", "Headers", "No headers found in sheet", .error,
   "HEADERS_001"⟩

/-- Mirrors `validateSheet`: note that when the trimmed name matches one of
the four canonical sheets, the function returns the rule-set result,
abandoning the locally accumulated `errors` (and with it any `HEADERS_001`
violation pushed just above). -/
def validateSheet (sheet : Sheet) : List Violation :=
  if sheet.data.length = 0 then [sheetEmptyV sheet.name]
  else
    let errors := if sheet.headers.length = 0 then [headersV sheet.name] else []
    if jsTrim sheet.name = "Designation Mapping" then validateDesignationMappingSheet sheet
    else if jsTrim sheet.name = "Survey Master" then validateSurveyMasterSheet sheet
    else if jsTrim sheet.name = "Question Master" then validateQuestionMasterSheet sheet
    else if jsTrim sheet.name = "Access Sheet" then validateAccessSheet sheet
    else errors

def sheetCountV (n : Nat) : Violation :=
  ⟨"incorrect-sheet-count", "File Structure", 0, "", "Sheet Count",
   "File must contain exactly 4 sheets. Found " ++ toString n ++ " sheets.", .error,
   "SHEET_COUNT_001"⟩

def missingSheetV (e : String) : Violation :=
  ⟨"missing-sheet-" ++ e, "File Structure", 0, "", "Required Sheet",
   "Missing required sheet: \"" ++ e ++ "\". Sheet names must be exact.", .error,
   "SHEET_STRUCTURE_001"⟩

def unexpectedSheetV (n : String) : Violation :=
  ⟨"unexpected-sheet-" ++ n, "File Structure", 0, "", "Unexpected Sheet",
   "Unexpected sheet: \"" ++ n ++ "\". Only these sheets are allowed: " ++
     joinComma expectedSheets, .error, "SHEET_STRUCTURE_002"⟩

/-- The three document-level checks (sheet count, missing sheets,
unexpected sheets), in source order. -/
def structuralViolations (sheets : List Sheet) : List Violation :=
  (if sheets.length = 4 then [] else [sheetCountV sheets.length]) ++
  expectedSheets.filterMap
    (fun e => if sheets.any (fun s => jsTrim s.name == e) then none else some (missingSheetV e)) ++
  sheets.filterMap
    (fun s => if expectedSheets.contains (jsTrim s.name) then none
              else some (unexpectedSheetV s.name))

/-- `errorsBySheet[sheet] = (errorsBySheet[sheet] || 0) + 1` on an
insertion-ordered association list. -/
def bump : List (String × Nat) → String → List (String × Nat)
  | [], k => [(k, 1)]
  | (k', n) :: rest, k =>
    if k' == k then (k', n + 1) :: rest else (k', n) :: bump rest k

/-- One step of the `errors.forEach` counting loop over the
(`errorsBySheet`, `warningsBySheet`) pair. -/
def tally (acc : List (String × Nat) × List (String × Nat)) (e : Violation) :
    List (String × Nat) × List (String × Nat) :=
  if e.severity = .error then (bump acc.1 e.sheet, acc.2)
  else if e.severity = .warning then (acc.1, bump acc.2 e.sheet)
  else acc

/-- The engine: structural checks, per-sheet validation, aggregation. -/
def validateFMBDumpSheet (sheets : List Sheet) : List Violation × ValidationSummary :=
  let errors := structuralViolations sheets ++ sheets.flatMap validateSheet
  let maps := errors.foldl tally ([], [])
  (errors,
   ⟨(errors.filter (fun e => decide (e.severity = .error))).length,
    (errors.filter (fun e => decide (e.severity = .warning))).length,
    maps.1, maps.2⟩)

/-- Sum of the values of an association-list map. -/
def sumVals (l : List (String × Nat)) : Nat := (l.map Prod.snd).sum

/-! ### Generic helper lemmas -/

theorem mem_iteNil {c : Prop} [Decidable c] {w v : Violation}
    (h : v ∈ if c then [w] else ([] : List Violation)) : v = w := by
  split at h <;> simp_all

theorem mem_iteNil2 {c1 c2 : Prop} [Decidable c1] [Decidable c2] {a b v : Violation}
    (h : v ∈ if c1 then [a] else if c2 then [b] else ([] : List Violation)) :
    v = a ∨ v = b := by
  split at h
  · simp_all
  · split at h <;> simp_all

theorem filterMap_guard {α β : Type} (l : List α) (c : α → Bool) (g : α → β) :
    (l.filterMap fun a => if c a then none else some (g a)) =
      (l.filter (fun a => !c a)).map g := by
  induction l with
  | nil => rfl
  | cons a l ih =>
    by_cases h : c a <;> simp [List.filterMap_cons, List.filter_cons, h, ih]

theorem flatMap_guard {α β : Type} (l : List α) (c : α → Bool) (g : α → β) :
    (l.flatMap fun a => if c a then [g a] else []) = (l.filter c).map g := by
  induction l with
  | nil => rfl
  | cons a l ih =>
    by_cases h : c a <;> simp [List.flatMap_cons, List.filter_cons, h, ih]

theorem getD_append_replicate_absent (l : List CellValue) (m i : Nat) :
    (l ++ List.replicate m CellValue.absent).getD i CellValue.absent = l.getD i CellValue.absent := by
  rw [List.getD_eq_getElem?_getD, List.getD_eq_getElem?_getD]
  rcases Nat.lt_or_ge i l.length with h | h
  · rw [List.getElem?_append_left h]
  · have h1 : l[i]? = none := List.getElem?_eq_none h
    rw [h1, List.getElem?_append_right h, List.getElem?_replicate]
    split <;> rfl

/-! ### The severity discipline and rule bookkeeping -/

/-- The severity the engine attaches to each rule code: `AS-04` and `AS-14`
are warnings, everything else is an error. -/
def sevOf (rule : String) : Severity :=
  if rule = "AS-04" ∨ rule = "AS-14" then .warning else .error

/-- Well-formedness of one emitted violation relative to the row number it
was emitted for and to a set of possible rule codes. -/
def vOK (k : Nat) (rules : List String) (v : Violation) : Prop :=
  v.row = k ∧ v.rule ∈ rules ∧ v.severity = sevOf v.rule

theorem vOK_mono {k : Nat} {rules rules' : List String} {v : Violation}
    (hsub : ∀ r ∈ rules, r ∈ rules') (h : vOK k rules v) : vOK k rules' v :=
  ⟨h.1, hsub _ h.2.1, h.2.2⟩

theorem wsAux_ok (pre name : String) (hdrs : List String) (k : Nat) :
    ∀ (i : Nat) (cs : List CellValue), ∀ v ∈ wsAux pre name hdrs k i cs,
      vOK k ["U-01"] v := by
  intro i cs
  induction cs generalizing i with
  | nil => simp [wsAux]
  | cons c cs ih =>
    intro v hv
    simp only [wsAux, List.mem_append] at hv
    rcases hv with hv | hv
    · cases mem_iteNil hv
      exact ⟨rfl, by simp [wsV], by simp [wsV, sevOf]⟩
    · exact ih (i + 1) v hv

theorem wsViolations_ok (pre name : String) (hdrs : List String) (k : Nat) (row : Row) :
    ∀ v ∈ wsViolations pre name hdrs k row, vOK k ["U-01"] v :=
  wsAux_ok pre name hdrs k 0 row

/-! ### scanRows lemmas -/

theorem scanRows_append {σ : Type} (f : σ → Nat → Row → List Violation) (u : σ → Row → σ)
    (s : σ) (n : Nat) (xs ys : List Row) :
    scanRows f u s n (xs ++ ys) =
      scanRows f u s n xs ++ scanRows f u (xs.foldl u s) (n + xs.length) ys := by
  induction xs generalizing s n with
  | nil => simp [scanRows]
  | cons x xs ih =>
    simp only [List.cons_append, scanRows, List.foldl_cons, List.length_cons, List.append_eq]
    rw [ih (u s x) (n + 1)]
    have h : n + 1 + xs.length = n + (xs.length + 1) := by omega
    rw [h, List.append_assoc]

theorem scanRows_forall {σ : Type} (f : σ → Nat → Row → List Violation) (u : σ → Row → σ)
    (Q : Nat → Violation → Prop) (hf : ∀ s n r, ∀ v ∈ f s n r, Q n v) :
    ∀ (rows : List Row) (s : σ) (n : Nat), ∀ v ∈ scanRows f u s n rows,
      ∃ m, n ≤ m ∧ Q m v := by
  intro rows
  induction rows with
  | nil => simp [scanRows]
  | cons r rs ih =>
    intro s n v hv
    simp only [scanRows, List.mem_append] at hv
    rcases hv with hv | hv
    · exact ⟨n, Nat.le_refl n, hf s n r v hv⟩
    · obtain ⟨m, hm, hQ⟩ := ih (u s r) (n + 1) v hv
      exact ⟨m, Nat.le_of_succ_le hm, hQ⟩

theorem scanRows_filter_lt {σ : Type} (f : σ → Nat → Row → List Violation) (u : σ → Row → σ)
    (q : Violation → Bool) (hrow : ∀ s n r, ∀ v ∈ f s n r, v.row = n) :
    ∀ (rows : List Row) (s : σ) (n m : Nat), m < n →
      (scanRows f u s n rows).filter (fun v => q v && v.row == m) = [] := by
  intro rows
  induction rows with
  | nil => simp [scanRows]
  | cons r rs ih =>
    intro s n m hm
    simp only [scanRows, List.filter_append]
    rw [ih (u s r) (n + 1) m (Nat.lt_succ_of_lt hm), List.append_nil]
    rw [List.filter_eq_nil_iff]
    intro v hv
    have h := hrow s n r v hv
    simp [h, Nat.ne_of_gt hm]

/-- Extracting the violations of a single row out of a `scanRows` run by
filtering on the row number, given that a per-row filter equation holds. -/
theorem scanRows_filter_unique {σ : Type} (f : σ → Nat → Row → List Violation)
    (u : σ → Row → σ) (q : Violation → Bool) (w : Nat → Row → List Violation)
    (hrow : ∀ s n r, ∀ v ∈ f s n r, v.row = n)
    (hA : ∀ s n r, (f s n r).filter (fun v => q v && v.row == n) = w n r)
    (hnil : ∀ m, w m [] = []) :
    ∀ (rows : List Row) (s : σ) (n i : Nat),
      (scanRows f u s n rows).filter (fun v => q v && v.row == n + i) =
        w (n + i) (rows.getD i []) := by
  intro rows
  induction rows with
  | nil => intro s n i; simp [scanRows, hnil]
  | cons r rs ih =>
    intro s n i
    simp only [scanRows, List.filter_append]
    cases i with
    | zero =>
      rw [Nat.add_zero, hA s n r,
        scanRows_filter_lt f u q hrow rs (u s r) (n + 1) n (Nat.lt_succ_self n),
        List.append_nil]
      rfl
    | succ j =>
      have h1 : (f s n r).filter (fun v => q v && v.row == n + (j + 1)) = [] := by
        rw [List.filter_eq_nil_iff]
        intro v hv
        have h := hrow s n r v hv
        have : n ≠ n + (j + 1) := by omega
        simp [h, this]
      rw [h1, List.nil_append]
      have h2 := ih (u s r) (n + 1) j
      have harith : n + 1 + j = n + (j + 1) := by omega
      rw [harith] at h2
      rw [h2]
      rfl

theorem scanRows_map_inv {σ : Type} (f : σ → Nat → Row → List Violation) (u : σ → Row → σ)
    (g : Row → Row) (hf : ∀ s n r, f s n (g r) = f s n r) (hu : ∀ s r, u s (g r) = u s r) :
    ∀ (rows : List Row) (s : σ) (n : Nat),
      scanRows f u s n (rows.map g) = scanRows f u s n rows := by
  intro rows
  induction rows with
  | nil => simp
  | cons r rs ih => intro s n; simp [scanRows, hf, hu, ih]

/-! ### Rule inventories per emission site -/

def dmRestRules : List String :=
  ["DM-02", "DM-03", "DM-04", "DM-05", "DM-06", "DM-07", "DM-08", "DM-09"]

def dmRowRules : List String := "U-01" :: dmRestRules

def smRestRules : List String :=
  ["SM-01", "SM-02", "SM-03", "SM-04", "SM-05", "SM-06", "SM-07", "SM-08", "SM-09",
   "SM-10", "SM-11", "SM-12", "SM-13", "SM-14"]

def smRowRules : List String := "U-01" :: smRestRules

def qmRestRules : List String :=
  ["QM-01", "QM-02", "QM-03", "QM-04", "QM-05", "QM-06", "QM-07", "QM-08", "QM-09",
   "QM-10", "QM-11", "QM-12", "QM-13", "QM-14", "QM-15", "QM-16", "QM-17", "QM-18", "QM-19"]

def qmRowRules : List String := "U-01" :: qmRestRules

def asRestRules : List String :=
  ["AS-01", "AS-02", "AS-03", "AS-04", "AS-05", "AS-06", "AS-07", "AS-08", "AS-09",
   "AS-10", "AS-11", "AS-12", "AS-13", "AS-14"]

def asRowRules : List String := "U-01" :: asRestRules

theorem dmRowRest_ok (name : String) (hdrs : List String) (k : Nat) (row : Row) :
    ∀ w ∈ dmRowRest name hdrs k row, vOK k dmRestRules w := by
  intro w hw
  simp only [dmRowRest, List.mem_append] at hw
  rcases hw with (((hw | hw) | hw) | hw) | hw
  · unfold dmStateCheck at hw
    split at hw
    · simp only [List.mem_singleton] at hw
      subst hw; exact ⟨rfl, by simp [dm02V, dmRestRules], by simp [dm02V, sevOf]⟩
    · split at hw
      · simp only [List.mem_singleton] at hw
        subst hw; exact ⟨rfl, by simp [dm03V, dmRestRules], by simp [dm03V, sevOf]⟩
      · simp at hw
  · unfold dmMediumCheck at hw
    split at hw
    · simp only [List.mem_singleton] at hw
      subst hw; exact ⟨rfl, by simp [dm04V, dmRestRules], by simp [dm04V, sevOf]⟩
    · simp at hw
  · unfold dmMediumEngCheck at hw
    split at hw
    · simp only [List.mem_singleton] at hw
      subst hw; exact ⟨rfl, by simp [dm05V, dmRestRules], by simp [dm05V, sevOf]⟩
    · simp at hw
  · unfold dmDesignationsCheck at hw
    split at hw
    · simp only [List.mem_singleton] at hw
      subst hw; exact ⟨rfl, by simp [dm06V, dmRestRules], by simp [dm06V, sevOf]⟩
    · split at hw
      · simp only [List.mem_singleton] at hw
        subst hw; exact ⟨rfl, by simp [dm07V, dmRestRules], by simp [dm07V, sevOf]⟩
      · simp at hw
  · unfold dmLevelCheck at hw
    split at hw
    · simp only [List.mem_singleton] at hw
      subst hw; exact ⟨rfl, by simp [dm08V, dmRestRules], by simp [dm08V, sevOf]⟩
    · split at hw
      · simp only [List.mem_singleton] at hw
        subst hw; exact ⟨rfl, by simp [dm09V, dmRestRules], by simp [dm09V, sevOf]⟩
      · split at hw
        · simp only [List.mem_singleton] at hw
          subst hw; exact ⟨rfl, by simp [dm09V, dmRestRules], by simp [dm09V, sevOf]⟩
        · simp at hw

theorem dmRowViolations_ok (name : String) (hdrs : List String) (k : Nat) (row : Row) :
    ∀ w ∈ dmRowViolations name hdrs k row, vOK k dmRowRules w := by
  intro w hw
  simp only [dmRowViolations, List.mem_append] at hw
  rcases hw with hw | hw
  · exact vOK_mono (by decide) (wsViolations_ok "DM" name hdrs k row w hw)
  · exact vOK_mono (by decide) (dmRowRest_ok name hdrs k row w hw)

theorem smRowRest_ok (name : String) (hdrs : List String) (ids : List String) (k : Nat)
    (row : Row) : ∀ w ∈ smRowRest name hdrs ids k row, vOK k smRestRules w := by
  intro w hw
  simp only [smRowRest, List.mem_append] at hw
  rcases hw with (((((((((hw | hw) | hw) | hw) | hw) | hw) | hw) | hw) | hw) | hw) | hw
  · unfold smSurveyIdCheck at hw
    split at hw
    · simp at hw
    · simp only [] at hw
      split at hw
      · simp only [List.mem_singleton] at hw
        subst hw; exact ⟨rfl, by simp [sm01V, smRestRules], by simp [sm01V, sevOf]⟩
      · simp only [List.mem_append] at hw
        rcases hw with hw | hw
        · cases mem_iteNil hw
          exact ⟨rfl, by simp [sm02V, smRestRules], by simp [sm02V, sevOf]⟩
        · cases mem_iteNil hw
          exact ⟨rfl, by simp [sm03V, smRestRules], by simp [sm03V, sevOf]⟩
  · unfold smSurveyNameCheck at hw
    split at hw
    · simp at hw
    · split at hw
      · simp only [List.mem_singleton] at hw
        subst hw; exact ⟨rfl, by simp [sm04V, smRestRules], by simp [sm04V, sevOf]⟩
      · simp at hw
  · unfold smDescCheck at hw
    split at hw
    · simp at hw
    · simp only [] at hw
      split at hw
      · simp at hw
      · split at hw
        · simp only [List.mem_singleton] at hw
          subst hw; exact ⟨rfl, by simp [sm05V, smRestRules], by simp [sm05V, sevOf]⟩
        · simp at hw
  · unfold smMediumsCheck at hw
    split at hw
    · simp at hw
    · cases mem_iteNil hw
      exact ⟨rfl, by simp [sm06V, smRestRules], by simp [sm06V, sevOf]⟩
  · unfold smHALCheck at hw
    split at hw
    · simp at hw
    · cases mem_iteNil hw
      exact ⟨rfl, by simp [sm07V, smRestRules], by simp [sm07V, sevOf]⟩
  · unfold smLaunchCheck at hw
    split at hw
    · simp at hw
    · simp only [] at hw
      split at hw
      · simp only [List.mem_singleton] at hw
        subst hw; exact ⟨rfl, by simp [sm08V, smRestRules], by simp [sm08V, sevOf]⟩
      · split at hw
        · simp only [List.mem_singleton] at hw
          subst hw; exact ⟨rfl, by simp [sm09V, smRestRules], by simp [sm09V, sevOf]⟩
        · simp at hw
  · unfold smCloseCheck at hw
    split at hw
    · simp at hw
    · cases mem_iteNil hw
      exact ⟨rfl, by simp [sm10V, smRestRules], by simp [sm10V, sevOf]⟩
  · unfold smModeCheck at hw
    split at hw
    · simp at hw
    · cases mem_iteNil hw
      exact ⟨rfl, by simp [sm11V, smRestRules], by simp [sm11V, sevOf]⟩
  · unfold smYesNoCheck at hw
    simp only [List.mem_flatMap] at hw
    obtain ⟨field, _, hw⟩ := hw
    split at hw
    · simp at hw
    · cases mem_iteNil hw
      exact ⟨rfl, by simp [sm12V, smRestRules], by simp [sm12V, sevOf]⟩
  · unfold smGeoFencingCheck at hw
    split at hw
    · simp at hw
    · cases mem_iteNil hw
      exact ⟨rfl, by simp [sm13V, smRestRules], by simp [sm13V, sevOf]⟩
  · unfold smTestSurveyCheck at hw
    split at hw
    · simp at hw
    · cases mem_iteNil hw
      exact ⟨rfl, by simp [sm14V, smRestRules], by simp [sm14V, sevOf]⟩

theorem smRowViolations_ok (name : String) (hdrs : List String) (ids : List String) (k : Nat)
    (row : Row) : ∀ w ∈ smRowViolations name hdrs ids k row, vOK k smRowRules w := by
  intro w hw
  simp only [smRowViolations, List.mem_append] at hw
  rcases hw with hw | hw
  · exact vOK_mono (by decide) (wsViolations_ok "SM" name hdrs k row w hw)
  · exact vOK_mono (by decide) (smRowRest_ok name hdrs ids k row w hw)

theorem qmRowRest_ok (name : String) (hdrs : List String) (ids : List String) (k : Nat)
    (row : Row) : ∀ w ∈ qmRowRest name hdrs ids k row, vOK k qmRestRules w := by
  intro w hw
  simp only [qmRowRest, List.mem_append] at hw
  rcases hw with ((((((((((((hw | hw) | hw) | hw) | hw) | hw) | hw) | hw) | hw) | hw) | hw) | hw) | hw) | hw
  · unfold qmMandCheck at hw
    split at hw
    · simp at hw
    · split at hw
      · simp only [List.mem_singleton] at hw
        subst hw; exact ⟨rfl, by simp [qm01V, qmRestRules], by simp [qm01V, sevOf]⟩
      · simp at hw
  · unfold qmMandCheck at hw
    split at hw
    · simp at hw
    · split at hw
      · simp only [List.mem_singleton] at hw
        subst hw; exact ⟨rfl, by simp [qm02V, qmRestRules], by simp [qm02V, sevOf]⟩
      · simp at hw
  · unfold qmMandCheck at hw
    split at hw
    · simp at hw
    · split at hw
      · simp only [List.mem_singleton] at hw
        subst hw; exact ⟨rfl, by simp [qm03V, qmRestRules], by simp [qm03V, sevOf]⟩
      · simp at hw
  · unfold qmQuestionIdCheck at hw
    split at hw
    · simp at hw
    · simp only [] at hw
      split at hw
      · simp only [List.mem_singleton] at hw
        subst hw; exact ⟨rfl, by simp [qm04V, qmRestRules], by simp [qm04V, sevOf]⟩
      · simp only [List.mem_append] at hw
        rcases hw with hw | hw
        · cases mem_iteNil hw
          exact ⟨rfl, by simp [qm05V, qmRestRules], by simp [qm05V, sevOf]⟩
        · cases mem_iteNil hw
          exact ⟨rfl, by simp [qm06V, qmRestRules], by simp [qm06V, sevOf]⟩
  · unfold qmTypeCheck at hw
    split at hw
    · simp at hw
    · simp only [] at hw
      split at hw
      · simp only [List.mem_singleton] at hw
        subst hw; exact ⟨rfl, by simp [qm07V, qmRestRules], by simp [qm07V, sevOf]⟩
      · split at hw
        · simp only [List.mem_singleton] at hw
          subst hw; exact ⟨rfl, by simp [qm08V, qmRestRules], by simp [qm08V, sevOf]⟩
        · simp at hw
  · unfold qmIsDynamicCheck at hw
    split at hw
    · simp at hw
    · split at hw
      · simp only [List.mem_singleton] at hw
        subst hw; exact ⟨rfl, by simp [qm09V, qmRestRules], by simp [qm09V, sevOf]⟩
      · simp at hw
  · unfold qmDescCheck at hw
    split at hw
    · simp at hw
    · cases mem_iteNil hw
      exact ⟨rfl, by simp [qm10V, qmRestRules], by simp [qm10V, sevOf]⟩
  · unfold qmMaxMinCheck at hw
    split at hw
    · simp at hw
    · simp only [] at hw
      split at hw
      · split at hw
        · split at hw
          · simp only [List.mem_singleton] at hw
            subst hw; exact ⟨rfl, by simp [qm11V, qmRestRules], by simp [qm11V, sevOf]⟩
          · simp at hw
        · simp at hw
      · simp at hw
  · unfold qmIsMandatoryCheck at hw
    split at hw
    · simp at hw
    · cases mem_iteNil hw
      exact ⟨rfl, by simp [qm12V, qmRestRules], by simp [qm12V, sevOf]⟩
  · unfold qmTableHeaderCheck at hw
    split at hw
    · simp at hw
    · simp only [] at hw
      split at hw
      · simp only [List.mem_singleton] at hw
        subst hw; exact ⟨rfl, by simp [qm13V, qmRestRules], by simp [qm13V, sevOf]⟩
      · split at hw
        · simp only [List.mem_singleton] at hw
          subst hw; exact ⟨rfl, by simp [qm14V, qmRestRules], by simp [qm14V, sevOf]⟩
        · simp at hw
  · unfold qmModeCheck at hw
    split at hw
    · simp at hw
    · cases mem_iteNil hw
      exact ⟨rfl, by simp [qm15V, qmRestRules], by simp [qm15V, sevOf]⟩
  · unfold qmMediaTypeCheck at hw
    split at hw
    · simp at hw
    · simp only [] at hw
      split at hw
      · simp only [List.mem_singleton] at hw
        subst hw; exact ⟨rfl, by simp [qm16V, qmRestRules], by simp [qm16V, sevOf]⟩
      · split at hw
        · simp only [List.mem_singleton] at hw
          subst hw; exact ⟨rfl, by simp [qm17V, qmRestRules], by simp [qm17V, sevOf]⟩
        · simp at hw
  · unfold qmCorrectAnswerCheck at hw
    split at hw
    · simp at hw
    · split at hw
      · simp only [List.mem_singleton] at hw
        subst hw; exact ⟨rfl, by simp [qm18V, qmRestRules], by simp [qm18V, sevOf]⟩
      · simp at hw
  · unfold qmChildrenCheck at hw
    split at hw
    · simp at hw
    · split at hw
      · simp only [List.mem_singleton] at hw
        subst hw; exact ⟨rfl, by simp [qm19V, qmRestRules], by simp [qm19V, sevOf]⟩
      · simp at hw

theorem qmRowViolations_ok (name : String) (hdrs : List String) (ids : List String) (k : Nat)
    (row : Row) : ∀ w ∈ qmRowViolations name hdrs ids k row, vOK k qmRowRules w := by
  intro w hw
  simp only [qmRowViolations, List.mem_append] at hw
  rcases hw with hw | hw
  · exact vOK_mono (by decide) (wsViolations_ok "QM" name hdrs k row w hw)
  · exact vOK_mono (by decide) (qmRowRest_ok name hdrs ids k row w hw)

theorem asRowRest_ok (name : String) (hdrs : List String) (st : List String × List String)
    (k : Nat) (row : Row) : ∀ w ∈ asRowRest name hdrs st k row, vOK k asRestRules w := by
  intro w hw
  simp only [asRowRest, List.mem_append] at hw
  rcases hw with (((((((hw | hw) | hw) | hw) | hw) | hw) | hw) | hw) | hw
  · unfold asDesignationCheck at hw
    split at hw
    · simp at hw
    · split at hw
      · simp only [List.mem_singleton] at hw
        subst hw; exact ⟨rfl, by simp [as01V, asRestRules], by simp [as01V, sevOf]⟩
      · simp at hw
  · unfold asLevelCheck at hw
    split at hw
    · simp at hw
    · simp only [] at hw
      split at hw
      · simp only [List.mem_singleton] at hw
        subst hw; exact ⟨rfl, by simp [as02V, asRestRules], by simp [as02V, sevOf]⟩
      · split at hw
        · simp only [List.mem_singleton] at hw
          subst hw; exact ⟨rfl, by simp [as03V, asRestRules], by simp [as03V, sevOf]⟩
        · split at hw
          · simp only [List.mem_singleton] at hw
            subst hw; exact ⟨rfl, by simp [as03V, asRestRules], by simp [as03V, sevOf]⟩
          · simp at hw
  · unfold asBotIdCheck at hw
    split at hw
    · simp at hw
    · split at hw
      · simp only [List.mem_singleton] at hw
        subst hw; exact ⟨rfl, by simp [as04V, asRestRules], by simp [as04V, sevOf]⟩
      · simp at hw
  · unfold asStateCheck at hw
    split at hw
    · simp at hw
    · split at hw
      · simp only [List.mem_singleton] at hw
        subst hw; exact ⟨rfl, by simp [as05V, asRestRules], by simp [as05V, sevOf]⟩
      · simp at hw
  · unfold asNameCheck at hw
    split at hw
    · simp at hw
    · simp only [] at hw
      split at hw
      · simp only [List.mem_singleton] at hw
        subst hw; exact ⟨rfl, by simp [as06V, asRestRules], by simp [as06V, sevOf]⟩
      · split at hw
        · simp only [List.mem_singleton] at hw
          subst hw; exact ⟨rfl, by simp [as07V, asRestRules], by simp [as07V, sevOf]⟩
        · simp at hw
  · unfold asUserIdCheck at hw
    split at hw
    · simp at hw
    · simp only [] at hw
      split at hw
      · simp only [List.mem_singleton] at hw
        subst hw; exact ⟨rfl, by simp [as08V, asRestRules], by simp [as08V, sevOf]⟩
      · split at hw
        · simp only [List.mem_singleton] at hw
          subst hw; exact ⟨rfl, by simp [as09V, asRestRules], by simp [as09V, sevOf]⟩
        · simp at hw
  · unfold asStatusCheck at hw
    split at hw
    · simp at hw
    · simp only [] at hw
      split at hw
      · simp only [List.mem_singleton] at hw
        subst hw; exact ⟨rfl, by simp [as10V, asRestRules], by simp [as10V, sevOf]⟩
      · split at hw
        · simp only [List.mem_singleton] at hw
          subst hw; exact ⟨rfl, by simp [as11V, asRestRules], by simp [as11V, sevOf]⟩
        · simp at hw
  · unfold asMobileCheck at hw
    split at hw
    · simp at hw
    · simp only [] at hw
      split at hw
      · simp only [List.mem_singleton] at hw
        subst hw; exact ⟨rfl, by simp [as12V, asRestRules], by simp [as12V, sevOf]⟩
      · split at hw
        · simp only [List.mem_singleton] at hw
          subst hw; exact ⟨rfl, by simp [as13V, asRestRules], by simp [as13V, sevOf]⟩
        · simp at hw
  · unfold asEmailCheck at hw
    split at hw
    · simp at hw
    · cases mem_iteNil hw
      exact ⟨rfl, by simp [as14V, asRestRules], by simp [as14V, sevOf]⟩

theorem asRowViolations_ok (name : String) (hdrs : List String) (st : List String × List String)
    (k : Nat) (row : Row) : ∀ w ∈ asRowViolations name hdrs st k row, vOK k asRowRules w := by
  intro w hw
  simp only [asRowViolations, List.mem_append] at hw
  rcases hw with hw | hw
  · exact vOK_mono (by decide) (wsViolations_ok "AS" name hdrs k row w hw)
  · exact vOK_mono (by decide) (asRowRest_ok name hdrs st k row w hw)

theorem dmHeaderViolations_ok (sheet : Sheet) :
    ∀ w ∈ dmHeaderViolations sheet, vOK 1 ["DM-00", "DM-01"] w := by
  intro w hw
  simp only [dmHeaderViolations, List.mem_append] at hw
  rcases hw with hw | hw
  · split at hw
    · simp at hw
    · simp only [List.mem_singleton] at hw
      subst hw; exact ⟨rfl, by simp [dm00V], by simp [dm00V, sevOf]⟩
  · split at hw
    · simp at hw
    · simp only [List.mem_singleton] at hw
      subst hw; exact ⟨rfl, by simp [dm01V], by simp [dm01V, sevOf]⟩

theorem smHeaderViolations_ok (sheet : Sheet) :
    ∀ w ∈ smHeaderViolations sheet, vOK 1 ["SURVEY_MASTER_001"] w := by
  intro w hw
  simp only [smHeaderViolations, List.mem_filterMap] at hw
  obtain ⟨col, _, hcol⟩ := hw
  split at hcol
  · simp at hcol
  · simp only [Option.some_inj] at hcol
    subst hcol; exact ⟨rfl, by simp [smMissingColV], by simp [smMissingColV, sevOf]⟩

theorem asHeaderViolations_ok (sheet : Sheet) :
    ∀ w ∈ asHeaderViolations sheet, vOK 1 ["ACCESS_SHEET_001"] w := by
  intro w hw
  simp only [asHeaderViolations, List.mem_filterMap] at hw
  obtain ⟨col, _, hcol⟩ := hw
  split at hcol
  · simp at hcol
  · simp only [Option.some_inj] at hcol
    subst hcol; exact ⟨rfl, by simp [asMissingColV], by simp [asMissingColV, sevOf]⟩

theorem dmDupBlock_ok (sheet : Sheet) (k : Int) :
    ∀ w ∈ dmDupBlock sheet k, vOK 0 ["DM-10", "DM-11"] w := by
  intro w hw
  unfold dmDupBlock at hw
  split at hw
  · simp only [List.mem_singleton] at hw
    subst hw; exact ⟨rfl, by simp [dm10V], by simp [dm10V, sevOf]⟩
  · cases mem_iteNil hw
    exact ⟨rfl, by simp [dm11V], by simp [dm11V, sevOf]⟩
  · simp at hw

theorem structuralViolations_ok (sheets : List Sheet) :
    ∀ w ∈ structuralViolations sheets,
      w.sheet = "File Structure" ∧ w.row = 0 ∧
      w.rule ∈ ["SHEET_COUNT_001", "SHEET_STRUCTURE_001", "SHEET_STRUCTURE_002"] ∧
      w.severity = sevOf w.rule := by
  intro w hw
  simp only [structuralViolations, List.mem_append] at hw
  rcases hw with (hw | hw) | hw
  · split at hw
    · simp at hw
    · simp only [List.mem_singleton] at hw
      subst hw
      exact ⟨rfl, rfl, by simp [sheetCountV], by simp [sheetCountV, sevOf]⟩
  · simp only [List.mem_filterMap] at hw
    obtain ⟨e, _, he⟩ := hw
    split at he
    · simp at he
    · simp only [Option.some_inj] at he
      subst he
      exact ⟨rfl, rfl, by simp [missingSheetV], by simp [missingSheetV, sevOf]⟩
  · simp only [List.mem_filterMap] at hw
    obtain ⟨t, _, ht⟩ := hw
    split at ht
    · simp at ht
    · simp only [Option.some_inj] at ht
      subst ht
      exact ⟨rfl, rfl, by simp [unexpectedSheetV], by simp [unexpectedSheetV, sevOf]⟩

/-! ### Per-sheet severity discipline -/

theorem validateDM_sev (sheet : Sheet) :
    ∀ w ∈ validateDesignationMappingSheet sheet, w.severity = sevOf w.rule := by
  intro w hw
  simp only [validateDesignationMappingSheet, List.mem_append] at hw
  rcases hw with (hw | hw) | hw
  · exact (dmHeaderViolations_ok sheet w hw).2.2
  · obtain ⟨m, _, hQ⟩ :=
      scanRows_forall _ _ (fun n v => vOK n dmRowRules v)
        (fun _ n r v hv => dmRowViolations_ok sheet.name sheet.headers n r v hv) _ _ _ w hw
    exact hQ.2.2
  · simp only [List.mem_flatMap] at hw
    obtain ⟨k, _, hk⟩ := hw
    exact (dmDupBlock_ok sheet k w hk).2.2

theorem validateSM_sev (sheet : Sheet) :
    ∀ w ∈ validateSurveyMasterSheet sheet, w.severity = sevOf w.rule := by
  intro w hw
  simp only [validateSurveyMasterSheet, List.mem_append] at hw
  rcases hw with hw | hw
  · exact (smHeaderViolations_ok sheet w hw).2.2
  · obtain ⟨m, _, hQ⟩ :=
      scanRows_forall _ _ (fun n v => vOK n smRowRules v)
        (fun s n r v hv => smRowViolations_ok sheet.name sheet.headers s n r v hv) _ _ _ w hw
    exact hQ.2.2

theorem validateQM_sev (sheet : Sheet) :
    ∀ w ∈ validateQuestionMasterSheet sheet, w.severity = sevOf w.rule := by
  intro w hw
  simp only [validateQuestionMasterSheet] at hw
  obtain ⟨m, _, hQ⟩ :=
    scanRows_forall _ _ (fun n v => vOK n qmRowRules v)
      (fun s n r v hv => qmRowViolations_ok sheet.name sheet.headers s n r v hv) _ _ _ w hw
  exact hQ.2.2

theorem validateAS_sev (sheet : Sheet) :
    ∀ w ∈ validateAccessSheet sheet, w.severity = sevOf w.rule := by
  intro w hw
  simp only [validateAccessSheet, List.mem_append] at hw
  rcases hw with hw | hw
  · exact (asHeaderViolations_ok sheet w hw).2.2
  · obtain ⟨m, _, hQ⟩ :=
      scanRows_forall _ _ (fun n v => vOK n asRowRules v)
        (fun s n r v hv => asRowViolations_ok sheet.name sheet.headers s n r v hv) _ _ _ w hw
    exact hQ.2.2

theorem validateSheet_sev (sheet : Sheet) :
    ∀ w ∈ validateSheet sheet, w.severity = sevOf w.rule := by
  intro w hw
  unfold validateSheet at hw
  split at hw
  · simp only [List.mem_singleton] at hw
    subst hw; simp [sheetEmptyV, sevOf]
  · simp only [] at hw
    split at hw
    · exact validateDM_sev sheet w hw
    · split at hw
      · exact validateSM_sev sheet w hw
      · split at hw
        · exact validateQM_sev sheet w hw
        · split at hw
          · exact validateAS_sev sheet w hw
          · split at hw
            · simp only [List.mem_singleton] at hw
              subst hw; simp [headersV, sevOf]
            · simp at hw

theorem engine_sev (sheets : List Sheet) :
    ∀ w ∈ (validateFMBDumpSheet sheets).1, w.severity = sevOf w.rule := by
  intro w hw
  simp only [validateFMBDumpSheet, List.mem_append] at hw
  rcases hw with hw | hw
  · exact (structuralViolations_ok sheets w hw).2.2.2
  · simp only [List.mem_flatMap] at hw
    obtain ⟨sh, _, hsh⟩ := hw
    exact validateSheet_sev sh w hsh

/-! ### Filter helpers keyed on rule codes -/

theorem filter_rule_nil {rules : List String} {r : String} (l : List Violation)
    (h : ∀ w ∈ l, w.rule ∈ rules) (hr : r ∉ rules) :
    l.filter (fun v => v.rule == r) = [] := by
  rw [List.filter_eq_nil_iff]
  intro v hv
  have hmem := h v hv
  simp only [beq_iff_eq]
  intro heq
  exact hr (heq ▸ hmem)

theorem filter_rule_self {r : String} (l : List Violation) (h : ∀ w ∈ l, w.rule = r) :
    l.filter (fun v => v.rule == r) = l := by
  rw [List.filter_eq_self]
  intro v hv
  simp [beq_iff_eq, h v hv]

/-! ### Aggregation lemmas -/

theorem sumVals_bump (m : List (String × Nat)) (k : String) :
    sumVals (bump m k) = sumVals m + 1 := by
  induction m with
  | nil => rfl
  | cons p rest ih =>
    obtain ⟨k', n⟩ := p
    unfold bump
    split
    · simp [sumVals]
      omega
    · simp only [sumVals, List.map_cons, List.sum_cons] at ih ⊢
      omega

theorem foldl_tally_sums (errs : List Violation) :
    ∀ m : List (String × Nat) × List (String × Nat),
      sumVals (errs.foldl tally m).1
          = sumVals m.1 + (errs.filter (fun e => decide (e.severity = Severity.error))).length ∧
        sumVals (errs.foldl tally m).2
          = sumVals m.2 + (errs.filter (fun e => decide (e.severity = Severity.warning))).length := by
  induction errs with
  | nil => intro m; simp
  | cons e rest ih =>
    intro m
    cases hsev : e.severity
    · have ht : tally m e = (bump m.1 e.sheet, m.2) := by simp [tally, hsev]
      constructor
      · simp only [List.foldl_cons, ht, List.filter_cons, hsev]
        rw [(ih _).1]
        simp [sumVals_bump]
        omega
      · simp only [List.foldl_cons, ht, List.filter_cons, hsev]
        rw [(ih _).2]
        simp
    · have ht : tally m e = (m.1, bump m.2 e.sheet) := by simp [tally, hsev]
      constructor
      · simp only [List.foldl_cons, ht, List.filter_cons, hsev]
        rw [(ih _).1]
        simp
      · simp only [List.foldl_cons, ht, List.filter_cons, hsev]
        rw [(ih _).2]
        simp [sumVals_bump]
        omega
    · have ht : tally m e = m := by simp [tally, hsev]
      constructor
      · simp only [List.foldl_cons, ht, List.filter_cons, hsev]
        rw [(ih _).1]
        simp
      · simp only [List.foldl_cons, ht, List.filter_cons, hsev]
        rw [(ih _).2]
        simp

/-! ### Concrete documents used by witnesses and counterexamples -/

/-- A fully valid Designation Mapping sheet (spec §8 scenario). -/
def dmSheetOK : Sheet :=
  ⟨"Designation Mapping",
   [dmRequiredColumns.map CellValue.text,
    [.text "Karnataka", .text "Kannada", .text "Kannada", .text "Teacher_1", .text "2"]],
   dmRequiredColumns⟩

def smRowOK : Row :=
  [.text "S_1", .text "Test", .text "", .text "", .text "", .text "Yes", .text "No",
   .text "01/01/2025 00:00:00", .text "", .text "None", .text "Yes", .text "Yes", .text "No",
   .text "No", .text "No", .text "No"]

def smSheetOK : Sheet :=
  ⟨"Survey Master", [smRequiredColumns.map CellValue.text, smRowOK], smRequiredColumns⟩

def qmSheetOK : Sheet :=
  ⟨"Question Master", [[CellValue.text "Note"], [CellValue.text "x"]], ["Note"]⟩

def asRowOK : Row :=
  [.text "T", .text "1", .text "", .text "KA", .text "N_1", .text "u1", .text "Active"]

def asSheetOK : Sheet :=
  ⟨"Access Sheet", [asRequiredColumns.map CellValue.text, asRowOK], asRequiredColumns⟩

/-- A document on which the engine reports no violation at all. -/
def validDoc : List Sheet := [dmSheetOK, smSheetOK, qmSheetOK, asSheetOK]

/-- C1: the summary returned by `validateFMBDumpSheet` counts exactly the
error/warning-severity violations, both per-sheet maps sum to the
respective totals, document-level violations carry the pseudo-sheet name
`"File Structure"`, and an empty violation list yields zero totals and
empty maps. -/
theorem fmb_summary_consistent (sheets : List Sheet) :
    (validateFMBDumpSheet sheets).2.totalErrors
        = ((validateFMBDumpSheet sheets).1.filter
            (fun e => decide (e.severity = Severity.error))).length ∧
    (validateFMBDumpSheet sheets).2.totalWarnings
        = ((validateFMBDumpSheet sheets).1.filter
            (fun e => decide (e.severity = Severity.warning))).length ∧
    sumVals (validateFMBDumpSheet sheets).2.errorsBySheet
        = (validateFMBDumpSheet sheets).2.totalErrors ∧
    sumVals (validateFMBDumpSheet sheets).2.warningsBySheet
        = (validateFMBDumpSheet sheets).2.totalWarnings ∧
    (∀ w ∈ structuralViolations sheets, w.sheet = "File Structure") ∧
    ((validateFMBDumpSheet sheets).1 = [] →
      (validateFMBDumpSheet sheets).2.errorsBySheet = [] ∧
        (validateFMBDumpSheet sheets).2.warningsBySheet = []) := by
  refine ⟨rfl, rfl, ?_, ?_, ?_, ?_⟩
  · show sumVals (((structuralViolations sheets ++ sheets.flatMap validateSheet).foldl
        tally ([], [])).1)
      = ((structuralViolations sheets ++ sheets.flatMap validateSheet).filter
          (fun e => decide (e.severity = Severity.error))).length
    have h := (foldl_tally_sums
      (structuralViolations sheets ++ sheets.flatMap validateSheet) ([], [])).1
    simpa only [sumVals, List.map_nil, List.sum_nil, Nat.zero_add] using h
  · show sumVals (((structuralViolations sheets ++ sheets.flatMap validateSheet).foldl
        tally ([], [])).2)
      = ((structuralViolations sheets ++ sheets.flatMap validateSheet).filter
          (fun e => decide (e.severity = Severity.warning))).length
    have h := (foldl_tally_sums
      (structuralViolations sheets ++ sheets.flatMap validateSheet) ([], [])).2
    simpa only [sumVals, List.map_nil, List.sum_nil, Nat.zero_add] using h
  · exact fun w hw => (structuralViolations_ok sheets w hw).1
  · intro h
    have hE : structuralViolations sheets ++ sheets.flatMap validateSheet = [] := h
    constructor
    · show ((structuralViolations sheets ++ sheets.flatMap validateSheet).foldl
        tally ([], [])).1 = []
      rw [hE]
      rfl
    · show ((structuralViolations sheets ++ sheets.flatMap validateSheet).foldl
        tally ([], [])).2 = []
      rw [hE]
      rfl

/-- Witness for C1 at a concrete document with an empty violation list. -/
theorem fmb_summary_consistent_witness :
    (validateFMBDumpSheet validDoc).1 = [] ∧
      (validateFMBDumpSheet validDoc).2.errorsBySheet = [] ∧
      (validateFMBDumpSheet validDoc).2.warningsBySheet = [] :=
  ⟨by decide, (fmb_summary_consistent validDoc).2.2.2.2.2 (by decide)⟩

/-- C8: every violation the engine emits is an error, except the rules
`AS-04` (Bot ID filled) and `AS-14` (invalid email), which are warnings;
no violation ever has severity `info`. -/
theorem severity_classification (sheets : List Sheet) (w : Violation)
    (hw : w ∈ (validateFMBDumpSheet sheets).1) :
    w.severity = sevOf w.rule ∧ w.severity ≠ Severity.info ∧
    ((w.rule = "AS-04" ∨ w.rule = "AS-14") → w.severity = Severity.warning) ∧
    (w.rule ≠ "AS-04" → w.rule ≠ "AS-14" → w.severity = Severity.error) := by
  have h := engine_sev sheets w hw
  refine ⟨h, ?_, ?_, ?_⟩
  · rw [h]; unfold sevOf; split <;> simp
  · intro hr; rw [h]; unfold sevOf; rw [if_pos hr]
  · intro h1 h2; rw [h]; unfold sevOf
    rw [if_neg (by exact fun hor => hor.elim h1 h2)]

/-- A tiny Access Sheet whose single data row has a filled Bot ID. -/
def asBotIdDoc : List Sheet :=
  [⟨"Access Sheet", [[CellValue.text "Bot ID"], [CellValue.text "B1"]], ["Bot ID"]⟩]

/-- Witness for C8: an emitted `AS-04` violation is a warning and an
emitted structural violation is an error. -/
theorem severity_classification_witness :
    (as04V "Access Sheet" 2).severity = Severity.warning ∧
      (sheetCountV 0).severity = Severity.error :=
  ⟨((severity_classification asBotIdDoc (as04V "Access Sheet" 2) (by decide)).2.2.1
      (Or.inl rfl)),
   ((severity_classification [] (sheetCountV 0) (by decide)).2.2.2
      (by decide) (by decide))⟩

/-! ### Filter machinery for single rules and rows -/

theorem scanRows_rules {σ : Type} (f : σ → Nat → Row → List Violation) (u : σ → Row → σ)
    (rules : List String) (hf : ∀ s n r, ∀ w ∈ f s n r, w.rule ∈ rules) (s : σ) (n : Nat)
    (rows : List Row) : ∀ w ∈ scanRows f u s n rows, w.rule ∈ rules := by
  intro w hw
  obtain ⟨m, _, h⟩ := scanRows_forall f u (fun _ v => v.rule ∈ rules)
    (fun s n r v hv => hf s n r v hv) rows s n w hw
  exact h

theorem rule_ne_of_mem {rules : List String} {r : String} (h : r ∉ rules) {v : Violation}
    (hv : v.rule ∈ rules) : v.rule ≠ r :=
  fun heq => h (heq ▸ hv)

theorem filter_row_nil (l : List Violation) (q : Violation → Bool) (m : Nat)
    (h : ∀ w ∈ l, w.row ≠ m) : l.filter (fun v => q v && v.row == m) = [] := by
  rw [List.filter_eq_nil_iff]
  intro v hv
  simp [beq_iff_eq, h v hv]

theorem row_filter_u01 (ws rest : List Violation) (n : Nat)
    (hws : ∀ v ∈ ws, vOK n ["U-01"] v) (hrest : ∀ v ∈ rest, v.rule ≠ "U-01") :
    (ws ++ rest).filter (fun v => v.rule == "U-01" && v.row == n) = ws := by
  rw [List.filter_append]
  have h1 : ws.filter (fun v => v.rule == "U-01" && v.row == n) = ws := by
    rw [List.filter_eq_self]
    intro v hv
    have h := hws v hv
    have hr : v.rule = "U-01" := by simpa using h.2.1
    simp [beq_iff_eq, h.1, hr]
  have h2 : rest.filter (fun v => v.rule == "U-01" && v.row == n) = [] := by
    rw [List.filter_eq_nil_iff]
    intro v hv
    simp [beq_iff_eq, hrest v hv]
  rw [h1, h2, List.append_nil]

theorem wsAux_length (pre name : String) (hdrs : List String) (k : Nat) :
    ∀ (i : Nat) (cs : List CellValue),
      (wsAux pre name hdrs k i cs).length = cs.countP isEdgeSpaceCell := by
  intro i cs
  induction cs generalizing i with
  | nil => rfl
  | cons c cs ih =>
    by_cases h : isEdgeSpaceCell c <;>
      simp [wsAux, h, ih, List.countP_cons]

theorem dmRow_filter_u01 (name : String) (hdrs : List String) (n : Nat) (row : Row) :
    (dmRowViolations name hdrs n row).filter (fun v => v.rule == "U-01" && v.row == n)
      = wsViolations "DM" name hdrs n row := by
  unfold dmRowViolations
  exact row_filter_u01 _ _ _ (wsViolations_ok "DM" name hdrs n row)
    (fun v hv => rule_ne_of_mem (by decide) (dmRowRest_ok name hdrs n row v hv).2.1)

theorem smRow_filter_u01 (name : String) (hdrs ids : List String) (n : Nat) (row : Row) :
    (smRowViolations name hdrs ids n row).filter (fun v => v.rule == "U-01" && v.row == n)
      = wsViolations "SM" name hdrs n row := by
  unfold smRowViolations
  exact row_filter_u01 _ _ _ (wsViolations_ok "SM" name hdrs n row)
    (fun v hv => rule_ne_of_mem (by decide) (smRowRest_ok name hdrs ids n row v hv).2.1)

theorem qmRow_filter_u01 (name : String) (hdrs ids : List String) (n : Nat) (row : Row) :
    (qmRowViolations name hdrs ids n row).filter (fun v => v.rule == "U-01" && v.row == n)
      = wsViolations "QM" name hdrs n row := by
  unfold qmRowViolations
  exact row_filter_u01 _ _ _ (wsViolations_ok "QM" name hdrs n row)
    (fun v hv => rule_ne_of_mem (by decide) (qmRowRest_ok name hdrs ids n row v hv).2.1)

theorem asRow_filter_u01 (name : String) (hdrs : List String) (st : List String × List String)
    (n : Nat) (row : Row) :
    (asRowViolations name hdrs st n row).filter (fun v => v.rule == "U-01" && v.row == n)
      = wsViolations "AS" name hdrs n row := by
  unfold asRowViolations
  exact row_filter_u01 _ _ _ (wsViolations_ok "AS" name hdrs n row)
    (fun v hv => rule_ne_of_mem (by decide) (asRowRest_ok name hdrs st n row v hv).2.1)

theorem validateDM_filter_u01 (sheet : Sheet) (i : Nat) :
    (validateDesignationMappingSheet sheet).filter (fun v => v.rule == "U-01" && v.row == i + 2)
      = wsViolations "DM" sheet.name sheet.headers (i + 2) ((sheet.data.drop 1).getD i []) := by
  simp only [Nat.add_comm i 2]
  unfold validateDesignationMappingSheet
  rw [List.filter_append, List.filter_append]
  have hhdr : (dmHeaderViolations sheet).filter
      (fun v => v.rule == "U-01" && v.row == 2 + i) = [] :=
    filter_row_nil _ _ _ (fun w hw => by
      have := (dmHeaderViolations_ok sheet w hw).1; omega)
  have hdup : ((dmLevelKeys sheet).flatMap (dmDupBlock sheet)).filter
      (fun v => v.rule == "U-01" && v.row == 2 + i) = [] :=
    filter_row_nil _ _ _ (fun w hw => by
      simp only [List.mem_flatMap] at hw
      obtain ⟨k, _, hk⟩ := hw
      have := (dmDupBlock_ok sheet k w hk).1; omega)
  have hscan := scanRows_filter_unique (fun _ => dmRowViolations sheet.name sheet.headers)
    (fun _ _ => ()) (fun v => v.rule == "U-01")
    (fun m r => wsViolations "DM" sheet.name sheet.headers m r)
    (fun s n r w hw => (dmRowViolations_ok sheet.name sheet.headers n r w hw).1)
    (fun s n r => dmRow_filter_u01 sheet.name sheet.headers n r)
    (fun m => rfl) (sheet.data.drop 1) () 2 i
  rw [hhdr, hdup, hscan, List.nil_append, List.append_nil]

theorem validateSM_filter_u01 (sheet : Sheet) (i : Nat) :
    (validateSurveyMasterSheet sheet).filter (fun v => v.rule == "U-01" && v.row == i + 2)
      = wsViolations "SM" sheet.name sheet.headers (i + 2) ((sheet.data.drop 1).getD i []) := by
  simp only [Nat.add_comm i 2]
  unfold validateSurveyMasterSheet
  rw [List.filter_append]
  have hhdr : (smHeaderViolations sheet).filter
      (fun v => v.rule == "U-01" && v.row == 2 + i) = [] :=
    filter_row_nil _ _ _ (fun w hw => by
      have := (smHeaderViolations_ok sheet w hw).1; omega)
  have hscan := scanRows_filter_unique (smRowViolations sheet.name sheet.headers)
    (smUpd sheet.headers) (fun v => v.rule == "U-01")
    (fun m r => wsViolations "SM" sheet.name sheet.headers m r)
    (fun s n r w hw => (smRowViolations_ok sheet.name sheet.headers s n r w hw).1)
    (fun s n r => smRow_filter_u01 sheet.name sheet.headers s n r)
    (fun m => rfl) (sheet.data.drop 1) [] 2 i
  rw [hhdr, hscan, List.nil_append]

theorem validateQM_filter_u01 (sheet : Sheet) (i : Nat) :
    (validateQuestionMasterSheet sheet).filter (fun v => v.rule == "U-01" && v.row == i + 2)
      = wsViolations "QM" sheet.name sheet.headers (i + 2) ((sheet.data.drop 1).getD i []) := by
  simp only [Nat.add_comm i 2]
  unfold validateQuestionMasterSheet
  exact scanRows_filter_unique (qmRowViolations sheet.name sheet.headers)
    (qmUpd sheet.headers) (fun v => v.rule == "U-01")
    (fun m r => wsViolations "QM" sheet.name sheet.headers m r)
    (fun s n r w hw => (qmRowViolations_ok sheet.name sheet.headers s n r w hw).1)
    (fun s n r => qmRow_filter_u01 sheet.name sheet.headers s n r)
    (fun m => rfl) (sheet.data.drop 1) [] 2 i

theorem validateAS_filter_u01 (sheet : Sheet) (i : Nat) :
    (validateAccessSheet sheet).filter (fun v => v.rule == "U-01" && v.row == i + 2)
      = wsViolations "AS" sheet.name sheet.headers (i + 2) ((sheet.data.drop 1).getD i []) := by
  simp only [Nat.add_comm i 2]
  unfold validateAccessSheet
  rw [List.filter_append]
  have hhdr : (asHeaderViolations sheet).filter
      (fun v => v.rule == "U-01" && v.row == 2 + i) = [] :=
    filter_row_nil _ _ _ (fun w hw => by
      have := (asHeaderViolations_ok sheet w hw).1; omega)
  have hscan := scanRows_filter_unique (asRowViolations sheet.name sheet.headers)
    (asUpd sheet.headers) (fun v => v.rule == "U-01")
    (fun m r => wsViolations "AS" sheet.name sheet.headers m r)
    (fun s n r w hw => (asRowViolations_ok sheet.name sheet.headers s n r w hw).1)
    (fun s n r => asRow_filter_u01 sheet.name sheet.headers s n r)
    (fun m => rfl) (sheet.data.drop 1) ([], []) 2 i
  rw [hhdr, hscan, List.nil_append]

/-- C4 (amended): in every rule set, the per-row `U-01` violations are
exactly the per-cell whitespace scan, which flags precisely the textual
cells that start or end with a space character `' '` (one violation per
offending cell, always severity error); a cell such as `"\tActive"`, whose
leading whitespace is not the space character, is not flagged. -/
theorem u01_space_characterization :
    (∀ (sheet : Sheet) (i : Nat),
      (validateDesignationMappingSheet sheet).filter
          (fun v => v.rule == "U-01" && v.row == i + 2)
        = wsViolations "DM" sheet.name sheet.headers (i + 2) ((sheet.data.drop 1).getD i [])) ∧
    (∀ (sheet : Sheet) (i : Nat),
      (validateSurveyMasterSheet sheet).filter (fun v => v.rule == "U-01" && v.row == i + 2)
        = wsViolations "SM" sheet.name sheet.headers (i + 2) ((sheet.data.drop 1).getD i [])) ∧
    (∀ (sheet : Sheet) (i : Nat),
      (validateQuestionMasterSheet sheet).filter (fun v => v.rule == "U-01" && v.row == i + 2)
        = wsViolations "QM" sheet.name sheet.headers (i + 2) ((sheet.data.drop 1).getD i [])) ∧
    (∀ (sheet : Sheet) (i : Nat),
      (validateAccessSheet sheet).filter (fun v => v.rule == "U-01" && v.row == i + 2)
        = wsViolations "AS" sheet.name sheet.headers (i + 2) ((sheet.data.drop 1).getD i [])) ∧
    (∀ (pre name : String) (hdrs : List String) (n : Nat) (row : Row),
      (wsViolations pre name hdrs n row).length = row.countP isEdgeSpaceCell) ∧
    (∀ (pre name : String) (hdrs : List String) (n : Nat) (row : Row),
      (wsViolations pre name hdrs n row).all
        (fun v => v.rule == "U-01" && decide (v.severity = Severity.error) && v.row == n)
        = true) ∧
    (isEdgeSpaceCell (.text "Active") = false ∧ isEdgeSpaceCell (.text " Active") = true ∧
      isEdgeSpaceCell (.text "Active ") = true ∧ isEdgeSpaceCell (.text "\tActive") = false ∧
      isEdgeSpaceCell (.num 5) = false) := by
  refine ⟨validateDM_filter_u01, validateSM_filter_u01, validateQM_filter_u01,
    validateAS_filter_u01, ?_, ?_, by decide⟩
  · exact fun pre name hdrs n row => wsAux_length pre name hdrs n 0 row
  · intro pre name hdrs n row
    rw [List.all_eq_true]
    intro v hv
    have h := wsViolations_ok pre name hdrs n row v hv
    have hr : v.rule = "U-01" := by simpa using h.2.1
    simp [beq_iff_eq, hr, h.1, h.2.2, hr ▸ h.2.2, sevOf]

/-- A Designation Mapping sheet whose first cell has a leading tab: the
cell carries leading whitespace, yet the engine emits no `U-01` violation,
contradicting C4 as stated (the scan looks for the space character only). -/
def dmTabSheet : Sheet :=
  ⟨"Designation Mapping",
   [dmRequiredColumns.map CellValue.text,
    [.text "\tKarnataka", .text "Kannada", .text "Kannada", .text "Teacher_1", .text "2"]],
   dmRequiredColumns⟩

/-- Counterexample to C4 as stated: a textual cell with leading whitespace
(a tab) produces no `U-01` violation. -/
theorem u01_whitespace_cex :
    ("\tKarnataka".data.head?.map Char.isWhitespace = some true) ∧
      ((validateDesignationMappingSheet dmTabSheet).filter
        (fun v => v.rule == "U-01")).length = 0 := by
  decide

/-! ### C3: required-column errors -/

theorem validateSM_filter_missing (sheet : Sheet) :
    (validateSurveyMasterSheet sheet).filter (fun v => v.rule == "SURVEY_MASTER_001")
      = (smRequiredColumns.filter (fun c => !sheet.headers.contains c)).map
          (smMissingColV sheet.name) := by
  unfold validateSurveyMasterSheet
  rw [List.filter_append]
  have hscan : (scanRows (smRowViolations sheet.name sheet.headers) (smUpd sheet.headers) [] 2
      (sheet.data.drop 1)).filter (fun v => v.rule == "SURVEY_MASTER_001") = [] :=
    filter_rule_nil _
      (scanRows_rules _ _ smRowRules
        (fun s n r w hw => (smRowViolations_ok sheet.name sheet.headers s n r w hw).2.1)
        [] 2 (sheet.data.drop 1))
      (by decide)
  have hmap : (smHeaderViolations sheet).filter (fun v => v.rule == "SURVEY_MASTER_001")
      = smHeaderViolations sheet :=
    filter_rule_self _ (fun w hw => by
      have h := (smHeaderViolations_ok sheet w hw).2.1
      simpa using h)
  rw [hscan, hmap, List.append_nil, smHeaderViolations, filterMap_guard]

theorem validateAS_filter_missing (sheet : Sheet) :
    (validateAccessSheet sheet).filter (fun v => v.rule == "ACCESS_SHEET_001")
      = (asRequiredColumns.filter (fun c => !sheet.headers.contains c)).map
          (asMissingColV sheet.name) := by
  unfold validateAccessSheet
  rw [List.filter_append]
  have hscan : (scanRows (asRowViolations sheet.name sheet.headers) (asUpd sheet.headers)
      ([], []) 2 (sheet.data.drop 1)).filter (fun v => v.rule == "ACCESS_SHEET_001") = [] :=
    filter_rule_nil _
      (scanRows_rules _ _ asRowRules
        (fun s n r w hw => (asRowViolations_ok sheet.name sheet.headers s n r w hw).2.1)
        ([], []) 2 (sheet.data.drop 1))
      (by decide)
  have hmap : (asHeaderViolations sheet).filter (fun v => v.rule == "ACCESS_SHEET_001")
      = asHeaderViolations sheet :=
    filter_rule_self _ (fun w hw => by
      have h := (asHeaderViolations_ok sheet w hw).2.1
      simpa using h)
  rw [hscan, hmap, List.append_nil, asHeaderViolations, filterMap_guard]

theorem validateDM_filter_dm01 (sheet : Sheet) :
    (validateDesignationMappingSheet sheet).filter (fun v => v.rule == "DM-01")
      = (if (dmMissingColumns sheet.headers).isEmpty then []
         else [dm01V sheet.name (dmMissingColumns sheet.headers)]) := by
  unfold validateDesignationMappingSheet
  rw [List.filter_append, List.filter_append]
  have hscan : (scanRows (fun _ => dmRowViolations sheet.name sheet.headers) (fun _ _ => ())
      () 2 (sheet.data.drop 1)).filter (fun v => v.rule == "DM-01") = [] :=
    filter_rule_nil _
      (scanRows_rules _ _ dmRowRules
        (fun s n r w hw => (dmRowViolations_ok sheet.name sheet.headers n r w hw).2.1)
        () 2 (sheet.data.drop 1))
      (by decide)
  have hdup : ((dmLevelKeys sheet).flatMap (dmDupBlock sheet)).filter
      (fun v => v.rule == "DM-01") = [] :=
    filter_rule_nil _
      (fun w hw => by
        simp only [List.mem_flatMap] at hw
        obtain ⟨k, _, hk⟩ := hw
        exact (dmDupBlock_ok sheet k w hk).2.1)
      (by decide)
  have hhdr : (dmHeaderViolations sheet).filter (fun v => v.rule == "DM-01")
      = (if (dmMissingColumns sheet.headers).isEmpty then []
         else [dm01V sheet.name (dmMissingColumns sheet.headers)]) := by
    unfold dmHeaderViolations
    rw [List.filter_append]
    have h1 : (if sheet.headers.length = 5 then []
        else [dm00V sheet.name sheet.headers.length]).filter (fun v => v.rule == "DM-01")
        = [] := by
      split <;> simp [dm00V]
    have h2 : (if (dmMissingColumns sheet.headers).isEmpty then []
        else [dm01V sheet.name (dmMissingColumns sheet.headers)]).filter
          (fun v => v.rule == "DM-01")
        = (if (dmMissingColumns sheet.headers).isEmpty then []
           else [dm01V sheet.name (dmMissingColumns sheet.headers)]) := by
      split <;> simp [dm01V]
    rw [h1, h2, List.nil_append]
  rw [hscan, hdup, hhdr, List.append_nil, List.append_nil]

theorem validateDM_filter_dm00 (sheet : Sheet) :
    (validateDesignationMappingSheet sheet).filter (fun v => v.rule == "DM-00")
      = (if sheet.headers.length = 5 then []
         else [dm00V sheet.name sheet.headers.length]) := by
  unfold validateDesignationMappingSheet
  rw [List.filter_append, List.filter_append]
  have hscan : (scanRows (fun _ => dmRowViolations sheet.name sheet.headers) (fun _ _ => ())
      () 2 (sheet.data.drop 1)).filter (fun v => v.rule == "DM-00") = [] :=
    filter_rule_nil _
      (scanRows_rules _ _ dmRowRules
        (fun s n r w hw => (dmRowViolations_ok sheet.name sheet.headers n r w hw).2.1)
        () 2 (sheet.data.drop 1))
      (by decide)
  have hdup : ((dmLevelKeys sheet).flatMap (dmDupBlock sheet)).filter
      (fun v => v.rule == "DM-00") = [] :=
    filter_rule_nil _
      (fun w hw => by
        simp only [List.mem_flatMap] at hw
        obtain ⟨k, _, hk⟩ := hw
        exact (dmDupBlock_ok sheet k w hk).2.1)
      (by decide)
  have hhdr : (dmHeaderViolations sheet).filter (fun v => v.rule == "DM-00")
      = (if sheet.headers.length = 5 then []
         else [dm00V sheet.name sheet.headers.length]) := by
    unfold dmHeaderViolations
    rw [List.filter_append]
    have h1 : (if sheet.headers.length = 5 then []
        else [dm00V sheet.name sheet.headers.length]).filter (fun v => v.rule == "DM-00")
        = (if sheet.headers.length = 5 then []
           else [dm00V sheet.name sheet.headers.length]) := by
      split <;> simp [dm00V]
    have h2 : (if (dmMissingColumns sheet.headers).isEmpty then []
        else [dm01V sheet.name (dmMissingColumns sheet.headers)]).filter
          (fun v => v.rule == "DM-00") = [] := by
      split <;> simp [dm01V]
    rw [h1, h2, List.append_nil]
  rw [hscan, hdup, hhdr, List.append_nil, List.append_nil]

/-- C3 (amended): Survey Master and Access Sheet emit one
missing-required-column error per absent column (so k absent columns give
k errors, each citing its column); Designation Mapping instead emits a
single `DM-01` error listing all missing columns whenever at least one is
absent, plus a `DM-00` error exactly when the header row does not have
exactly 5 columns. -/
theorem required_column_errors (sheet : Sheet) :
    (validateSurveyMasterSheet sheet).filter (fun v => v.rule == "SURVEY_MASTER_001")
        = (smRequiredColumns.filter (fun c => !sheet.headers.contains c)).map
            (smMissingColV sheet.name) ∧
    (validateAccessSheet sheet).filter (fun v => v.rule == "ACCESS_SHEET_001")
        = (asRequiredColumns.filter (fun c => !sheet.headers.contains c)).map
            (asMissingColV sheet.name) ∧
    (validateDesignationMappingSheet sheet).filter (fun v => v.rule == "DM-01")
        = (if (dmMissingColumns sheet.headers).isEmpty then []
           else [dm01V sheet.name (dmMissingColumns sheet.headers)]) ∧
    (validateDesignationMappingSheet sheet).filter (fun v => v.rule == "DM-00")
        = (if sheet.headers.length = 5 then []
           else [dm00V sheet.name sheet.headers.length]) :=
  ⟨validateSM_filter_missing sheet, validateAS_filter_missing sheet,
   validateDM_filter_dm01 sheet, validateDM_filter_dm00 sheet⟩

/-- A Designation Mapping sheet missing two of its required columns. -/
def dmMissingTwoSheet : Sheet :=
  ⟨"Designation Mapping", [["State", "Medium", "Medium_in_english"].map CellValue.text],
   ["State", "Medium", "Medium_in_english"]⟩

/-- Counterexample to C3 as stated: two required columns are absent, yet
only one required-column error (rule `DM-01`) is emitted - the rule set
joins all missing columns into a single violation instead of emitting one
per column. -/
theorem dm_required_columns_joined_cex :
    (dmRequiredColumns.filter (fun c => !dmMissingTwoSheet.headers.contains c)).length = 2 ∧
      ((validateDesignationMappingSheet dmMissingTwoSheet).filter
        (fun v => v.rule == "DM-01")).length = 1 ∧
      ((validateDesignationMappingSheet dmMissingTwoSheet).filter
        (fun v => v.rule == "DM-00" || v.rule == "DM-01")).length = 2 := by
  decide

/-! ### C2: the HEADERS_001 dead store -/

/-- C2 (code bug): a canonical-named sheet with data but an empty header
row loses its `HEADERS_001` violation: `validateSheet` pushes it and then
returns the rule-set output, discarding the local accumulator.  A
Question Master sheet with an empty header row therefore validates with
zero violations, while a non-canonical sheet in the same shape does
return `HEADERS_001`, and an empty sheet returns exactly the single
`SHEET_EMPTY_001` violation. -/
theorem headers001_discarded_eval :
    validateSheet ⟨"Question Master", [[]], []⟩ = [] ∧
    ((validateSheet ⟨"Question Master", [[]], []⟩).filter
        (fun v => v.rule == "HEADERS_001")).length = 0 ∧
    validateSheet ⟨"Designation Mapping", [[]], []⟩
        = [dm00V "Designation Mapping" 0, dm01V "Designation Mapping" dmRequiredColumns] ∧
    validateSheet ⟨"Someone", [[]], []⟩ = [headersV "Someone"] ∧
    validateSheet ⟨"X", [], []⟩ = [sheetEmptyV "X"] := by
  decide

/-! ### C5 and C10: duplicate hierarchical levels -/

/-- Whether the bucket for level `k` holds exactly two entries with the
same raw `Medium` value. -/
def dmSameMediumPair (sheet : Sheet) (k : Int) : Bool :=
  match dmEntriesFor sheet k with
  | [e1, e2] => decide (e1.2 = e2.2)
  | _ => false

theorem filter_flatMap {α : Type} (l : List α) (f : α → List Violation) (p : Violation → Bool) :
    (l.flatMap f).filter p = l.flatMap (fun a => (f a).filter p) := by
  induction l with
  | nil => rfl
  | cons a l ih => simp [List.flatMap_cons, List.filter_append, ih]

theorem dmDupBlock_filter10 (sheet : Sheet) (k : Int) :
    (dmDupBlock sheet k).filter (fun w => w.rule == "DM-10")
      = if decide (2 < (dmEntriesFor sheet k).length) then [dm10V sheet.name k] else [] := by
  unfold dmDupBlock
  rcases h : dmEntriesFor sheet k with _ | ⟨a, _ | ⟨b, _ | ⟨c, tl⟩⟩⟩ <;>
    simp only [h, List.length_nil, List.length_cons]
  · simp
  · simp
  · split <;> simp [dm11V]
  · simp [dm10V]

theorem dmDupBlock_filter11 (sheet : Sheet) (k : Int) :
    (dmDupBlock sheet k).filter (fun w => w.rule == "DM-11")
      = if dmSameMediumPair sheet k then [dm11V sheet.name k] else [] := by
  unfold dmDupBlock dmSameMediumPair
  rcases h : dmEntriesFor sheet k with _ | ⟨a, _ | ⟨b, _ | ⟨c, tl⟩⟩⟩ <;> simp only [h]
  · simp
  · simp
  · split <;> simp_all [dm11V]
  · simp [dm10V]

theorem dmLevelKeys_nodup (sheet : Sheet) : (dmLevelKeys sheet).Nodup :=
  ((List.perm_insertionSort _ _).nodup_iff).mpr (List.nodup_dedup _)

theorem mem_dmLevelKeys (sheet : Sheet) (v : Int) :
    v ∈ dmLevelKeys sheet ↔ dmEntriesFor sheet v ≠ [] := by
  unfold dmLevelKeys
  rw [(List.perm_insertionSort _ _).mem_iff, List.mem_dedup, List.mem_map]
  constructor
  · rintro ⟨e, he, rfl⟩
    intro hnil
    have : e ∈ dmEntriesFor sheet e.1 := by
      unfold dmEntriesFor
      rw [List.mem_filter]
      exact ⟨he, by simp⟩
    rw [hnil] at this
    exact List.not_mem_nil e this
  · intro h
    obtain ⟨e, he⟩ := List.exists_mem_of_ne_nil _ h
    unfold dmEntriesFor at he
    rw [List.mem_filter] at he
    have hv : e.1 = v := by simpa using he.2
    exact ⟨e, he.1, hv⟩

theorem dmLevelKeys_count_one (sheet : Sheet) (v : Int) (h : v ∈ dmLevelKeys sheet) :
    (dmLevelKeys sheet).count v = 1 := by
  have h1 := List.nodup_iff_count_le_one.mp (dmLevelKeys_nodup sheet) v
  have h2 : 0 < (dmLevelKeys sheet).count v := List.count_pos_iff.mpr h
  omega

theorem validateDM_filter_dm10 (sheet : Sheet) :
    (validateDesignationMappingSheet sheet).filter (fun w => w.rule == "DM-10")
      = ((dmLevelKeys sheet).filter
          (fun k => decide (2 < (dmEntriesFor sheet k).length))).map (dm10V sheet.name) := by
  unfold validateDesignationMappingSheet
  rw [List.filter_append, List.filter_append]
  have hhdr : (dmHeaderViolations sheet).filter (fun w => w.rule == "DM-10") = [] :=
    filter_rule_nil _ (fun w hw => (dmHeaderViolations_ok sheet w hw).2.1) (by decide)
  have hscan : (scanRows (fun _ => dmRowViolations sheet.name sheet.headers) (fun _ _ => ())
      () 2 (sheet.data.drop 1)).filter (fun w => w.rule == "DM-10") = [] :=
    filter_rule_nil _
      (scanRows_rules _ _ dmRowRules
        (fun s n r w hw => (dmRowViolations_ok sheet.name sheet.headers n r w hw).2.1)
        () 2 (sheet.data.drop 1))
      (by decide)
  rw [hhdr, hscan, filter_flatMap, List.nil_append, List.nil_append]
  simp only [dmDupBlock_filter10]
  exact flatMap_guard _ _ _

theorem validateDM_filter_dm11 (sheet : Sheet) :
    (validateDesignationMappingSheet sheet).filter (fun w => w.rule == "DM-11")
      = ((dmLevelKeys sheet).filter (dmSameMediumPair sheet)).map (dm11V sheet.name) := by
  unfold validateDesignationMappingSheet
  rw [List.filter_append, List.filter_append]
  have hhdr : (dmHeaderViolations sheet).filter (fun w => w.rule == "DM-11") = [] :=
    filter_rule_nil _ (fun w hw => (dmHeaderViolations_ok sheet w hw).2.1) (by decide)
  have hscan : (scanRows (fun _ => dmRowViolations sheet.name sheet.headers) (fun _ _ => ())
      () 2 (sheet.data.drop 1)).filter (fun w => w.rule == "DM-11") = [] :=
    filter_rule_nil _
      (scanRows_rules _ _ dmRowRules
        (fun s n r w hw => (dmRowViolations_ok sheet.name sheet.headers n r w hw).2.1)
        () 2 (sheet.data.drop 1))
      (by decide)
  rw [hhdr, hscan, filter_flatMap, List.nil_append, List.nil_append]
  simp only [dmDupBlock_filter11]
  exact flatMap_guard _ _ _

/-- C5: rows are bucketed by the integer value of their valid
`Hierarchical Level`; the engine's `DM-10` violations are exactly one per
level value with more than two occurrences, its `DM-11` violations exactly
one per level value with exactly two occurrences sharing the same raw
`Medium` value, and a level value with two occurrences of different
mediums contributes to neither. -/
theorem dm_duplicate_level_rules (sheet : Sheet) (v : Int) (e1 e2 : Int × CellValue) :
    ((validateDesignationMappingSheet sheet).filter (fun w => w.rule == "DM-10")
        = ((dmLevelKeys sheet).filter
            (fun k => decide (2 < (dmEntriesFor sheet k).length))).map (dm10V sheet.name)) ∧
    ((validateDesignationMappingSheet sheet).filter (fun w => w.rule == "DM-11")
        = ((dmLevelKeys sheet).filter (dmSameMediumPair sheet)).map (dm11V sheet.name)) ∧
    (dmLevelKeys sheet).Nodup ∧
    (2 < (dmEntriesFor sheet v).length →
      ((dmLevelKeys sheet).filter
        (fun k => decide (2 < (dmEntriesFor sheet k).length))).count v = 1) ∧
    (dmEntriesFor sheet v = [e1, e2] → e1.2 = e2.2 →
      ((dmLevelKeys sheet).filter (dmSameMediumPair sheet)).count v = 1) ∧
    (dmEntriesFor sheet v = [e1, e2] → e1.2 ≠ e2.2 →
      v ∉ (dmLevelKeys sheet).filter
            (fun k => decide (2 < (dmEntriesFor sheet k).length)) ∧
        v ∉ (dmLevelKeys sheet).filter (dmSameMediumPair sheet)) := by
  refine ⟨validateDM_filter_dm10 sheet, validateDM_filter_dm11 sheet,
    dmLevelKeys_nodup sheet, ?_, ?_, ?_⟩
  · intro hlen
    have hmem : v ∈ dmLevelKeys sheet := (mem_dmLevelKeys sheet v).mpr (by
      intro hnil
      rw [hnil] at hlen
      simp at hlen)
    have hp : decide (2 < (dmEntriesFor sheet v).length) = true := by simpa using hlen
    rw [@List.count_filter _ _ _ (fun k => decide (2 < (dmEntriesFor sheet k).length)) v
      (dmLevelKeys sheet) hp]
    exact dmLevelKeys_count_one sheet v hmem
  · intro hpair heq
    have hmem : v ∈ dmLevelKeys sheet := (mem_dmLevelKeys sheet v).mpr (by
      rw [hpair]; simp)
    have hp : dmSameMediumPair sheet v = true := by
      unfold dmSameMediumPair
      rw [hpair]
      simpa using heq
    rw [@List.count_filter _ _ _ (dmSameMediumPair sheet) v (dmLevelKeys sheet) hp]
    exact dmLevelKeys_count_one sheet v hmem
  · intro hpair hne
    constructor
    · intro hmem
      rw [List.mem_filter] at hmem
      have := hmem.2
      rw [hpair] at this
      simp at this
    · intro hmem
      rw [List.mem_filter] at hmem
      have hp := hmem.2
      unfold dmSameMediumPair at hp
      rw [hpair] at hp
      simp at hp
      exact hne hp

/-- A Designation Mapping sheet with two level-3 rows of the same medium
and, in a second variant, of different mediums. -/
def dmSameMediumSheet : Sheet :=
  ⟨"Designation Mapping",
   [dmRequiredColumns.map CellValue.text,
    [.text "Karnataka", .text "Kannada", .text "Kannada", .text "Teacher_1", .text "3"],
    [.text "Karnataka", .text "Kannada", .text "Kannada", .text "Teacher_2", .text "3"]],
   dmRequiredColumns⟩

def dmDiffMediumSheet : Sheet :=
  ⟨"Designation Mapping",
   [dmRequiredColumns.map CellValue.text,
    [.text "Karnataka", .text "Kannada", .text "Kannada", .text "Teacher_1", .text "3"],
    [.text "Karnataka", .text "Telugu", .text "Telugu", .text "Teacher_2", .text "3"]],
   dmRequiredColumns⟩

/-- Witness for C5: the same-medium pair yields exactly one `DM-11` key
contribution, and the different-medium pair contributes to neither
duplicate rule. -/
theorem dm_duplicate_level_rules_witness :
    ((dmLevelKeys dmSameMediumSheet).filter (dmSameMediumPair dmSameMediumSheet)).count 3 = 1 ∧
      (3 ∉ (dmLevelKeys dmDiffMediumSheet).filter
          (fun k => decide (2 < (dmEntriesFor dmDiffMediumSheet k).length)) ∧
        3 ∉ (dmLevelKeys dmDiffMediumSheet).filter (dmSameMediumPair dmDiffMediumSheet)) :=
  ⟨(dm_duplicate_level_rules dmSameMediumSheet 3 (3, .text "Kannada")
      (3, .text "Kannada")).2.2.2.2.1 (by decide) rfl,
   (dm_duplicate_level_rules dmDiffMediumSheet 3 (3, .text "Kannada")
      (3, .text "Telugu")).2.2.2.2.2 (by decide) (by decide)⟩

/-! ### C10: invalid levels never feed the duplicate tracker -/

theorem dmValidLevel_none (hdrs : List String) (r : Row)
    (hr : isMissingCell (cellAt hdrs r "Hierarchical Level") = true ∨
      ∀ q, jsNum (cellAt hdrs r "Hierarchical Level") = some q → (q.isNeg || !q.isInt) = true) :
    dmValidLevel hdrs r = none := by
  unfold dmValidLevel
  simp only []
  split
  · rfl
  · rcases hr with hmiss | hbad
    · simp_all
    · rcases hq : jsNum (cellAt hdrs r "Hierarchical Level") with _ | q
      · rfl
      · show (if (q.isNeg || !q.isInt) = true then none
          else some (q.toInt, cellAt hdrs r "Medium")) = none
        rw [if_pos (hbad q hq)]

theorem validateDM_filter_dup (sheet : Sheet) :
    (validateDesignationMappingSheet sheet).filter
        (fun w => w.rule == "DM-10" || w.rule == "DM-11")
      = ((dmLevelKeys sheet).flatMap (dmDupBlock sheet)).filter
        (fun w => w.rule == "DM-10" || w.rule == "DM-11") := by
  unfold validateDesignationMappingSheet
  rw [List.filter_append, List.filter_append]
  have hhdr : (dmHeaderViolations sheet).filter
      (fun w => w.rule == "DM-10" || w.rule == "DM-11") = [] := by
    rw [List.filter_eq_nil_iff]
    intro w hw
    have h := (dmHeaderViolations_ok sheet w hw).2.1
    simp only [List.mem_cons] at h
    rcases h with h | h | h
    · simp [h]
    · simp [h]
    · simp at h
  have hscan : (scanRows (fun _ => dmRowViolations sheet.name sheet.headers) (fun _ _ => ())
      () 2 (sheet.data.drop 1)).filter
      (fun w => w.rule == "DM-10" || w.rule == "DM-11") = [] := by
    rw [List.filter_eq_nil_iff]
    intro w hw
    have h := scanRows_rules _ _ dmRowRules
      (fun s n r w hw => (dmRowViolations_ok sheet.name sheet.headers n r w hw).2.1)
      () 2 (sheet.data.drop 1) w hw
    have h10 : w.rule ≠ "DM-10" := rule_ne_of_mem (by decide) h
    have h11 : w.rule ≠ "DM-11" := rule_ne_of_mem (by decide) h
    simp [beq_iff_eq, h10, h11]
  rw [hhdr, hscan, List.nil_append, List.nil_append]

/-- C10: a row whose `Hierarchical Level` is missing, fails to parse, or is
not a non-negative integer contributes nothing to the duplicate tracker:
removing such a row from anywhere in the sheet leaves the engine's `DM-10`
and `DM-11` violations exactly unchanged. -/
theorem dm_invalid_level_no_dup (name : String) (hdrs : List String) (h0 : Row)
    (pre post : List Row) (r : Row)
    (hr : isMissingCell (cellAt hdrs r "Hierarchical Level") = true ∨
      ∀ q, jsNum (cellAt hdrs r "Hierarchical Level") = some q → (q.isNeg || !q.isInt) = true) :
    (validateDesignationMappingSheet ⟨name, h0 :: (pre ++ r :: post), hdrs⟩).filter
        (fun w => w.rule == "DM-10" || w.rule == "DM-11")
      = (validateDesignationMappingSheet ⟨name, h0 :: (pre ++ post), hdrs⟩).filter
        (fun w => w.rule == "DM-10" || w.rule == "DM-11") := by
  have hnone := dmValidLevel_none hdrs r hr
  have hlev : dmLevels ⟨name, h0 :: (pre ++ r :: post), hdrs⟩
      = dmLevels ⟨name, h0 :: (pre ++ post), hdrs⟩ := by
    unfold dmLevels
    simp only [List.drop_succ_cons, List.drop_zero]
    rw [List.filterMap_append, List.filterMap_append, List.filterMap_cons, hnone]
  have hentries : dmEntriesFor ⟨name, h0 :: (pre ++ r :: post), hdrs⟩
      = dmEntriesFor ⟨name, h0 :: (pre ++ post), hdrs⟩ := by
    funext k
    unfold dmEntriesFor
    rw [hlev]
  have hkeys : dmLevelKeys ⟨name, h0 :: (pre ++ r :: post), hdrs⟩
      = dmLevelKeys ⟨name, h0 :: (pre ++ post), hdrs⟩ := by
    unfold dmLevelKeys
    rw [hlev]
  have hblock : dmDupBlock ⟨name, h0 :: (pre ++ r :: post), hdrs⟩
      = dmDupBlock ⟨name, h0 :: (pre ++ post), hdrs⟩ := by
    funext k
    unfold dmDupBlock
    rw [hentries]
  rw [validateDM_filter_dup, validateDM_filter_dup, hkeys, hblock]

/-- A row whose `Hierarchical Level` cell reads `"two"`. -/
def dmRowTwo : Row :=
  [.text "Karnataka", .text "Kannada", .text "Kannada", .text "Teacher_9", .text "two"]

/-- Witness for C10: inserting a row with the unparsable level `"two"`
between two valid rows leaves the duplicate violations unchanged. -/
theorem dm_invalid_level_no_dup_witness :
    (validateDesignationMappingSheet
        ⟨"Designation Mapping",
         (dmRequiredColumns.map CellValue.text) ::
           ([[.text "Karnataka", .text "Kannada", .text "Kannada", .text "Teacher_1", .text "3"]]
             ++ dmRowTwo ::
               [[.text "Karnataka", .text "Kannada", .text "Kannada", .text "Teacher_2",
                 .text "3"]]),
         dmRequiredColumns⟩).filter (fun w => w.rule == "DM-10" || w.rule == "DM-11")
      = (validateDesignationMappingSheet
          ⟨"Designation Mapping",
           (dmRequiredColumns.map CellValue.text) ::
             ([[.text "Karnataka", .text "Kannada", .text "Kannada", .text "Teacher_1",
                .text "3"]]
               ++ [[.text "Karnataka", .text "Kannada", .text "Kannada", .text "Teacher_2",
                 .text "3"]]),
           dmRequiredColumns⟩).filter (fun w => w.rule == "DM-10" || w.rule == "DM-11") :=
  dm_invalid_level_no_dup "Designation Mapping" dmRequiredColumns
    (dmRequiredColumns.map CellValue.text)
    [[.text "Karnataka", .text "Kannada", .text "Kannada", .text "Teacher_1", .text "3"]]
    [[.text "Karnataka", .text "Kannada", .text "Kannada", .text "Teacher_2", .text "3"]]
    dmRowTwo
    (Or.inr (fun q hq =>
      Option.noConfusion
        ((show jsNum (cellAt dmRequiredColumns dmRowTwo "Hierarchical Level") = none by
            decide).symm.trans hq)))

/-! ### C7: missing trailing cells behave as absent cells -/

/-- Extend a row to length `n` with explicit absent cells. -/
def padRow (n : Nat) (row : Row) : Row :=
  row ++ List.replicate (n - row.length) CellValue.absent

def padSheet (n : Nat) (s : Sheet) : Sheet :=
  ⟨s.name, s.data.map (padRow n), s.headers⟩

theorem getCell_pad (n : Nat) (row : Row) (i : Int) :
    getCell (padRow n row) i = getCell row i := by
  unfold getCell padRow
  split
  · rfl
  · exact getD_append_replicate_absent row _ _

theorem cellAt_pad (n : Nat) (hdrs : List String) (row : Row) (c : String) :
    cellAt hdrs (padRow n row) c = cellAt hdrs row c :=
  getCell_pad n row _

theorem strAt_pad (n : Nat) (hdrs : List String) (row : Row) (c : String) :
    strAt hdrs (padRow n row) c = strAt hdrs row c := by
  unfold strAt
  rw [cellAt_pad]

theorem wsAux_append (pre name : String) (hdrs : List String) (k : Nat) :
    ∀ (i : Nat) (l1 l2 : List CellValue),
      wsAux pre name hdrs k i (l1 ++ l2)
        = wsAux pre name hdrs k i l1 ++ wsAux pre name hdrs k (i + l1.length) l2 := by
  intro i l1
  induction l1 generalizing i with
  | nil => simp [wsAux]
  | cons c cs ih =>
    intro l2
    simp only [List.cons_append, wsAux, List.append_assoc, List.length_cons, List.append_eq]
    rw [ih]
    have h : i + (cs.length + 1) = i + 1 + cs.length := by omega
    rw [h]

theorem wsAux_replicate_absent (pre name : String) (hdrs : List String) (k : Nat) :
    ∀ (i m : Nat), wsAux pre name hdrs k i (List.replicate m CellValue.absent) = [] := by
  intro i m
  induction m generalizing i with
  | zero => rfl
  | succ m ih => simp [List.replicate_succ, wsAux, isEdgeSpaceCell, ih]

theorem wsViolations_pad (n : Nat) (pre name : String) (hdrs : List String) (k : Nat)
    (row : Row) :
    wsViolations pre name hdrs k (padRow n row) = wsViolations pre name hdrs k row := by
  unfold wsViolations padRow
  rw [wsAux_append, wsAux_replicate_absent, List.append_nil]

theorem dmRowViolations_pad (n : Nat) (name : String) (hdrs : List String) (k : Nat)
    (row : Row) :
    dmRowViolations name hdrs k (padRow n row) = dmRowViolations name hdrs k row := by
  simp only [dmRowViolations, dmRowRest, wsViolations_pad, cellAt_pad]

theorem dmValidLevel_pad (n : Nat) (hdrs : List String) (row : Row) :
    dmValidLevel hdrs (padRow n row) = dmValidLevel hdrs row := by
  simp only [dmValidLevel, cellAt_pad]

theorem smRowViolations_pad (n : Nat) (name : String) (hdrs ids : List String) (k : Nat)
    (row : Row) :
    smRowViolations name hdrs ids k (padRow n row) = smRowViolations name hdrs ids k row := by
  simp only [smRowViolations, smRowRest, smSurveyIdCheck, smSurveyNameCheck, smDescCheck,
    smMediumsCheck, smHALCheck, smLaunchCheck, smCloseCheck, smModeCheck, smYesNoCheck,
    smGeoFencingCheck, smTestSurveyCheck, wsViolations_pad, strAt_pad]

theorem smUpd_pad (n : Nat) (hdrs ids : List String) (row : Row) :
    smUpd hdrs ids (padRow n row) = smUpd hdrs ids row := by
  simp only [smUpd, strAt_pad]

theorem qmRowViolations_pad (n : Nat) (name : String) (hdrs ids : List String) (k : Nat)
    (row : Row) :
    qmRowViolations name hdrs ids k (padRow n row) = qmRowViolations name hdrs ids k row := by
  simp only [qmRowViolations, qmRowRest, qmMandCheck, qmQuestionIdCheck, qmTypeCheck,
    qmIsDynamicCheck, qmDescCheck, qmMaxMinCheck, qmIsMandatoryCheck, qmTableHeaderCheck,
    qmModeCheck, qmMediaTypeCheck, qmCorrectAnswerCheck, qmChildrenCheck, wsViolations_pad,
    strAt_pad]

theorem qmUpd_pad (n : Nat) (hdrs ids : List String) (row : Row) :
    qmUpd hdrs ids (padRow n row) = qmUpd hdrs ids row := by
  simp only [qmUpd, strAt_pad]

theorem asRowViolations_pad (n : Nat) (name : String) (hdrs : List String)
    (st : List String × List String) (k : Nat) (row : Row) :
    asRowViolations name hdrs st k (padRow n row) = asRowViolations name hdrs st k row := by
  simp only [asRowViolations, asRowRest, asDesignationCheck, asLevelCheck, asBotIdCheck,
    asStateCheck, asNameCheck, asUserIdCheck, asStatusCheck, asMobileCheck, asEmailCheck,
    wsViolations_pad, strAt_pad, cellAt_pad]

theorem asUpd_pad (n : Nat) (hdrs : List String) (st : List String × List String) (row : Row) :
    asUpd hdrs st (padRow n row) = asUpd hdrs st row := by
  simp only [asUpd, strAt_pad, cellAt_pad]

theorem drop_one_pad (n : Nat) (s : Sheet) :
    (padSheet n s).data.drop 1 = (s.data.drop 1).map (padRow n) := by
  show (s.data.map (padRow n)).drop 1 = (s.data.drop 1).map (padRow n)
  rw [List.map_drop]

theorem validateDM_pad (n : Nat) (s : Sheet) :
    validateDesignationMappingSheet (padSheet n s) = validateDesignationMappingSheet s := by
  have hlev : dmLevels (padSheet n s) = dmLevels s := by
    unfold dmLevels
    rw [drop_one_pad, List.filterMap_map]
    show (s.data.drop 1).filterMap (fun r => dmValidLevel s.headers (padRow n r)) = _
    simp only [dmValidLevel_pad]
  unfold validateDesignationMappingSheet
  have hscan : scanRows (fun _ => dmRowViolations (padSheet n s).name (padSheet n s).headers)
      (fun _ _ => ()) () 2 ((padSheet n s).data.drop 1)
      = scanRows (fun _ => dmRowViolations s.name s.headers) (fun _ _ => ()) () 2
        (s.data.drop 1) := by
    rw [drop_one_pad]
    exact scanRows_map_inv (fun _ => dmRowViolations s.name s.headers) (fun _ _ => ())
      (padRow n) (fun _ k r => dmRowViolations_pad n s.name s.headers k r)
      (fun _ _ => rfl) (s.data.drop 1) () 2
  have hhdr : dmHeaderViolations (padSheet n s) = dmHeaderViolations s := rfl
  have hkeys : dmLevelKeys (padSheet n s) = dmLevelKeys s := by
    unfold dmLevelKeys
    rw [hlev]
  have hblock : dmDupBlock (padSheet n s) = dmDupBlock s := by
    funext k
    unfold dmDupBlock dmEntriesFor
    rw [hlev]
    rfl
  rw [hscan, hhdr, hkeys, hblock]

theorem validateSM_pad (n : Nat) (s : Sheet) :
    validateSurveyMasterSheet (padSheet n s) = validateSurveyMasterSheet s := by
  unfold validateSurveyMasterSheet
  have hscan : scanRows (smRowViolations (padSheet n s).name (padSheet n s).headers)
      (smUpd (padSheet n s).headers) [] 2 ((padSheet n s).data.drop 1)
      = scanRows (smRowViolations s.name s.headers) (smUpd s.headers) [] 2
        (s.data.drop 1) := by
    rw [drop_one_pad]
    exact scanRows_map_inv _ _ (padRow n)
      (fun ids k r => smRowViolations_pad n s.name s.headers ids k r)
      (fun ids r => smUpd_pad n s.headers ids r) (s.data.drop 1) [] 2
  have hhdr : smHeaderViolations (padSheet n s) = smHeaderViolations s := rfl
  rw [hscan, hhdr]

theorem validateQM_pad (n : Nat) (s : Sheet) :
    validateQuestionMasterSheet (padSheet n s) = validateQuestionMasterSheet s := by
  unfold validateQuestionMasterSheet
  rw [drop_one_pad]
  exact scanRows_map_inv _ _ (padRow n)
    (fun ids k r => qmRowViolations_pad n s.name s.headers ids k r)
    (fun ids r => qmUpd_pad n s.headers ids r) (s.data.drop 1) [] 2

theorem validateAS_pad (n : Nat) (s : Sheet) :
    validateAccessSheet (padSheet n s) = validateAccessSheet s := by
  unfold validateAccessSheet
  have hscan : scanRows (asRowViolations (padSheet n s).name (padSheet n s).headers)
      (asUpd (padSheet n s).headers) ([], []) 2 ((padSheet n s).data.drop 1)
      = scanRows (asRowViolations s.name s.headers) (asUpd s.headers) ([], []) 2
        (s.data.drop 1) := by
    rw [drop_one_pad]
    exact scanRows_map_inv _ _ (padRow n)
      (fun st k r => asRowViolations_pad n s.name s.headers st k r)
      (fun st r => asUpd_pad n s.headers st r) (s.data.drop 1) ([], []) 2
  have hhdr : asHeaderViolations (padSheet n s) = asHeaderViolations s := rfl
  rw [hscan, hhdr]

theorem validateSheet_pad (n : Nat) (s : Sheet) :
    validateSheet (padSheet n s) = validateSheet s := by
  unfold validateSheet
  have hlen : (padSheet n s).data.length = s.data.length := by
    show (s.data.map (padRow n)).length = s.data.length
    rw [List.length_map]
  rw [hlen]
  split
  · rfl
  · show (let errors := if (padSheet n s).headers.length = 0
        then [headersV (padSheet n s).name] else []
      if jsTrim (padSheet n s).name = "Designation Mapping" then
        validateDesignationMappingSheet (padSheet n s)
      else if jsTrim (padSheet n s).name = "Survey Master" then
        validateSurveyMasterSheet (padSheet n s)
      else if jsTrim (padSheet n s).name = "Question Master" then
        validateQuestionMasterSheet (padSheet n s)
      else if jsTrim (padSheet n s).name = "Access Sheet" then
        validateAccessSheet (padSheet n s)
      else errors) = _
    simp only []
    rw [validateDM_pad, validateSM_pad, validateQM_pad, validateAS_pad]
    rfl

theorem structural_pad (n : Nat) (sheets : List Sheet) :
    structuralViolations (sheets.map (padSheet n)) = structuralViolations sheets := by
  unfold structuralViolations
  rw [List.length_map, List.filterMap_map]
  have hany : ∀ e : String,
      (sheets.map (padSheet n)).any (fun s => jsTrim s.name == e)
        = sheets.any (fun s => jsTrim s.name == e) := by
    intro e
    rw [List.any_map]
    rfl
  have h2 : (expectedSheets.filterMap fun e =>
      if (sheets.map (padSheet n)).any (fun s => jsTrim s.name == e) then none
      else some (missingSheetV e))
      = expectedSheets.filterMap fun e =>
        if sheets.any (fun s => jsTrim s.name == e) then none else some (missingSheetV e) := by
    apply List.filterMap_congr
    intro e _
    rw [hany]
  rw [h2]
  rfl

/-- C7: the engine treats a row shorter than any given width exactly as the
same row padded with explicit absent cells - extending every row of every
sheet with trailing absent cells changes neither the violation list nor the
summary, and cell access beyond the end of a row yields the absent value.
Totality itself is witnessed by the embedding: every validator is a total
function. -/
theorem engine_pad_absent_invariant (sheets : List Sheet) (n : Nat) :
    validateFMBDumpSheet (sheets.map (padSheet n)) = validateFMBDumpSheet sheets ∧
    (∀ (row : Row) (i : Int), getCell (padRow n row) i = getCell row i) := by
  constructor
  · unfold validateFMBDumpSheet
    rw [structural_pad]
    have hfm : (sheets.map (padSheet n)).flatMap validateSheet
        = sheets.flatMap validateSheet := by
      rw [List.flatMap_map]
      apply List.flatMap_congr
      intro s _
      exact validateSheet_pad n s
    rw [hfm]
  · exact fun row i => getCell_pad n row i

/-! ### C9: invalid mobiles and the (State, Mobile) accumulator -/

theorem hasCol_of_truthy (hdrs : List String) (row : Row) (c : String)
    (h : truthy (cellAt hdrs row c) = true) : hasCol hdrs c = true := by
  unfold hasCol
  by_contra hc
  have hneg : jsIndexOf hdrs c < 0 := by
    simp only [decide_eq_true_eq] at hc
    omega
  unfold cellAt getCell at h
  rw [if_pos hneg] at h
  simp [truthy] at h

theorem asDesignationCheck_rules (name : String) (hdrs : List String) (k : Nat) (row : Row) :
    ∀ w ∈ asDesignationCheck name hdrs k row, w.rule ∈ ["AS-01"] := by
  intro w hw
  unfold asDesignationCheck at hw
  split at hw
  · simp at hw
  · split at hw
    · simp only [List.mem_singleton] at hw
      subst hw; simp [as01V]
    · simp at hw

theorem asLevelCheck_rules (name : String) (hdrs : List String) (k : Nat) (row : Row) :
    ∀ w ∈ asLevelCheck name hdrs k row, w.rule ∈ ["AS-02", "AS-03"] := by
  intro w hw
  unfold asLevelCheck at hw
  split at hw
  · simp at hw
  · simp only [] at hw
    split at hw
    · simp only [List.mem_singleton] at hw
      subst hw; simp [as02V]
    · split at hw
      · simp only [List.mem_singleton] at hw
        subst hw; simp [as03V]
      · split at hw
        · simp only [List.mem_singleton] at hw
          subst hw; simp [as03V]
        · simp at hw

theorem asBotIdCheck_rules (name : String) (hdrs : List String) (k : Nat) (row : Row) :
    ∀ w ∈ asBotIdCheck name hdrs k row, w.rule ∈ ["AS-04"] := by
  intro w hw
  unfold asBotIdCheck at hw
  split at hw
  · simp at hw
  · split at hw
    · simp only [List.mem_singleton] at hw
      subst hw; simp [as04V]
    · simp at hw

theorem asStateCheck_rules (name : String) (hdrs : List String) (k : Nat) (row : Row) :
    ∀ w ∈ asStateCheck name hdrs k row, w.rule ∈ ["AS-05"] := by
  intro w hw
  unfold asStateCheck at hw
  split at hw
  · simp at hw
  · split at hw
    · simp only [List.mem_singleton] at hw
      subst hw; simp [as05V]
    · simp at hw

theorem asNameCheck_rules (name : String) (hdrs : List String) (k : Nat) (row : Row) :
    ∀ w ∈ asNameCheck name hdrs k row, w.rule ∈ ["AS-06", "AS-07"] := by
  intro w hw
  unfold asNameCheck at hw
  split at hw
  · simp at hw
  · simp only [] at hw
    split at hw
    · simp only [List.mem_singleton] at hw
      subst hw; simp [as06V]
    · split at hw
      · simp only [List.mem_singleton] at hw
        subst hw; simp [as07V]
      · simp at hw

theorem asUserIdCheck_rules (name : String) (hdrs uids : List String) (k : Nat) (row : Row) :
    ∀ w ∈ asUserIdCheck name hdrs uids k row, w.rule ∈ ["AS-08", "AS-09"] := by
  intro w hw
  unfold asUserIdCheck at hw
  split at hw
  · simp at hw
  · simp only [] at hw
    split at hw
    · simp only [List.mem_singleton] at hw
      subst hw; simp [as08V]
    · split at hw
      · simp only [List.mem_singleton] at hw
        subst hw; simp [as09V]
      · simp at hw

theorem asStatusCheck_rules (name : String) (hdrs : List String) (k : Nat) (row : Row) :
    ∀ w ∈ asStatusCheck name hdrs k row, w.rule ∈ ["AS-10", "AS-11"] := by
  intro w hw
  unfold asStatusCheck at hw
  split at hw
  · simp at hw
  · simp only [] at hw
    split at hw
    · simp only [List.mem_singleton] at hw
      subst hw; simp [as10V]
    · split at hw
      · simp only [List.mem_singleton] at hw
        subst hw; simp [as11V]
      · simp at hw

theorem asEmailCheck_rules (name : String) (hdrs : List String) (k : Nat) (row : Row) :
    ∀ w ∈ asEmailCheck name hdrs k row, w.rule ∈ ["AS-14"] := by
  intro w hw
  unfold asEmailCheck at hw
  split at hw
  · simp at hw
  · cases mem_iteNil hw
    simp [as14V]

/-- C9 (amended): a row whose Mobile cell is truthy (present, not the
empty string, not numeric zero) and fails `^[6-9]\d{9}$` receives exactly
one `AS-12` violation, receives no `AS-13` violation, and leaves the
(State, Mobile) pair accumulator unchanged, so such a row can never create
or suffer a duplicate-pair error. -/
theorem as_invalid_mobile (name : String) (hdrs : List String) (u p : List String) (k : Nat)
    (row : Row) (htruthy : truthy (cellAt hdrs row "Mobile") = true)
    (hbad : reMobile (jsTrim (cellToStr (cellAt hdrs row "Mobile"))) = false) :
    asMobileCheck name hdrs p k row = [as12V name k] ∧
    (asRowViolations name hdrs (u, p) k row).filter (fun w => w.rule == "AS-12")
        = [as12V name k] ∧
    (∀ w ∈ asRowViolations name hdrs (u, p) k row, w.rule ≠ "AS-13") ∧
    (asUpd hdrs (u, p) row).2 = p := by
  have hcol : hasCol hdrs "Mobile" = true := hasCol_of_truthy hdrs row "Mobile" htruthy
  have h1 : asMobileCheck name hdrs p k row = [as12V name k] := by
    simp [asMobileCheck, hcol, htruthy, hbad]
  refine ⟨h1, ?_, ?_, ?_⟩
  · simp only [asRowViolations, asRowRest, List.filter_append]
    rw [filter_rule_nil _ (fun w hw => (wsViolations_ok "AS" name hdrs k row w hw).2.1)
        (by decide),
      filter_rule_nil _ (asDesignationCheck_rules name hdrs k row) (by decide),
      filter_rule_nil _ (asLevelCheck_rules name hdrs k row) (by decide),
      filter_rule_nil _ (asBotIdCheck_rules name hdrs k row) (by decide),
      filter_rule_nil _ (asStateCheck_rules name hdrs k row) (by decide),
      filter_rule_nil _ (asNameCheck_rules name hdrs k row) (by decide),
      filter_rule_nil _ (asUserIdCheck_rules name hdrs u k row) (by decide),
      filter_rule_nil _ (asStatusCheck_rules name hdrs k row) (by decide),
      filter_rule_nil _ (asEmailCheck_rules name hdrs k row) (by decide), h1]
    simp [as12V]
  · intro w hw
    simp only [asRowViolations, asRowRest, List.mem_append] at hw
    rcases hw with hw | (((((((hw | hw) | hw) | hw) | hw) | hw) | hw) | hw) | hw
    · exact rule_ne_of_mem (by decide) (wsViolations_ok "AS" name hdrs k row w hw).2.1
    · exact rule_ne_of_mem (by decide) (asDesignationCheck_rules name hdrs k row w hw)
    · exact rule_ne_of_mem (by decide) (asLevelCheck_rules name hdrs k row w hw)
    · exact rule_ne_of_mem (by decide) (asBotIdCheck_rules name hdrs k row w hw)
    · exact rule_ne_of_mem (by decide) (asStateCheck_rules name hdrs k row w hw)
    · exact rule_ne_of_mem (by decide) (asNameCheck_rules name hdrs k row w hw)
    · exact rule_ne_of_mem (by decide) (asUserIdCheck_rules name hdrs u k row w hw)
    · exact rule_ne_of_mem (by decide) (asStatusCheck_rules name hdrs k row w hw)
    · rw [h1] at hw
      simp only [List.mem_singleton] at hw
      subst hw
      simp [as12V]
    · exact rule_ne_of_mem (by decide) (asEmailCheck_rules name hdrs k row w hw)
  · simp [asUpd, hcol, htruthy, hbad]

def asHdrsMobile : List String := asRequiredColumns ++ ["Mobile"]

def asRowBadMobile : Row :=
  [.text "T", .text "1", .text "", .text "KA", .text "N_1", .text "u1", .text "Active",
   .text "12345"]

/-- Witness for C9 at a concrete row whose Mobile value fails the format. -/
theorem as_invalid_mobile_witness :
    asMobileCheck "Access Sheet" asHdrsMobile [] 2 asRowBadMobile
        = [as12V "Access Sheet" 2] ∧
      (asUpd asHdrsMobile ([], []) asRowBadMobile).2 = [] := by
  have h := as_invalid_mobile "Access Sheet" asHdrsMobile [] [] 2 asRowBadMobile
    (by decide) (by decide)
  exact ⟨h.1, h.2.2.2⟩

/-- An Access Sheet row whose Mobile cell is the number `0`: the value
fails the mobile format, yet the row receives no `AS-12` violation because
the guard `row[mobileIndex]` is falsy for `0`. -/
def asMobileZeroSheet : Sheet :=
  ⟨"Access Sheet",
   [asHdrsMobile.map CellValue.text,
    [.text "T", .text "1", .text "", .text "KA", .text "N_1", .text "u1", .text "Active",
     .num 0]],
   asHdrsMobile⟩

/-- Counterexample to C9 as stated: a present Mobile value (`0`) that
fails the format produces no `AS-12` violation at all. -/
theorem as_mobile_zero_cex :
    reMobile (jsTrim (cellToStr (CellValue.num 0))) = false ∧
      asMobileZeroSheet.headers.contains "Mobile" = true ∧
      ((validateAccessSheet asMobileZeroSheet).filter
        (fun v => v.rule == "AS-12")).length = 0 := by
  decide

/-! ### C6: appending a duplicate Survey ID row -/

/-- The `surveyIds` set accumulated after processing the given rows. -/
def smSetAfter (hdrs : List String) (rows : List Row) : List String :=
  rows.foldl (smUpd hdrs) []

theorem smSurveyIdCheck_nil (name : String) (hdrs : List String) (k : Nat) (row : Row)
    (hcol : hasCol hdrs "Survey ID" = true)
    (h : smSurveyIdCheck name hdrs [] k row = []) :
    strAt hdrs row "Survey ID" ≠ "" ∧
      (!reAlnumUnderscore (strAt hdrs row "Survey ID")
        || containsWsStr (strAt hdrs row "Survey ID")) = false := by
  unfold smSurveyIdCheck at h
  rw [hcol] at h
  simp only [Bool.not_true] at h
  rw [if_neg (by simp)] at h
  split at h
  · simp at h
  · rw [List.append_eq_nil] at h
    have hfmt := h.2
    constructor
    · assumption
    · cases hb : (!reAlnumUnderscore (strAt hdrs row "Survey ID")
          || containsWsStr (strAt hdrs row "Survey ID")) with
      | false => rfl
      | true =>
        rw [hb] at hfmt
        simp at hfmt

theorem smSurveyIdCheck_dup (name : String) (hdrs F : List String) (k : Nat) (row : Row)
    (hcol : hasCol hdrs "Survey ID" = true) (hne : strAt hdrs row "Survey ID" ≠ "")
    (hfmt : (!reAlnumUnderscore (strAt hdrs row "Survey ID")
      || containsWsStr (strAt hdrs row "Survey ID")) = false)
    (hmem : strAt hdrs row "Survey ID" ∈ F) :
    smSurveyIdCheck name hdrs F k row = [sm02V name k (strAt hdrs row "Survey ID")] := by
  unfold smSurveyIdCheck
  rw [hcol]
  simp only [Bool.not_true]
  rw [if_neg (by simp)]
  rw [if_neg hne, if_pos (by simpa using hmem), if_neg (by simp [hfmt])]
  rfl

theorem smUpd_mono (hdrs : List String) (ids : List String) (row : Row) (x : String)
    (h : x ∈ ids) : x ∈ smUpd hdrs ids row := by
  unfold smUpd
  split
  · exact h
  · simp only []
    split
    · exact List.mem_append_left _ h
    · exact h

theorem smSetAfter_mono (hdrs : List String) (rows : List Row) (ids : List String)
    (x : String) (h : x ∈ ids) : x ∈ rows.foldl (smUpd hdrs) ids := by
  induction rows generalizing ids with
  | nil => exact h
  | cons r rs ih => exact ih (smUpd hdrs ids r) (smUpd_mono hdrs ids r x h)

theorem smRowViolations_dup (name : String) (hdrs F : List String) (m : Nat) (r : Row)
    (hcol : hasCol hdrs "Survey ID" = true)
    (hclean : smRowViolations name hdrs [] m r = [])
    (hmem : strAt hdrs r "Survey ID" ∈ F) :
    smRowViolations name hdrs F m r = [sm02V name m (strAt hdrs r "Survey ID")] := by
  unfold smRowViolations at hclean ⊢
  rw [List.append_eq_nil] at hclean
  obtain ⟨hws, hrest⟩ := hclean
  unfold smRowRest at hrest ⊢
  simp only [List.append_eq_nil] at hrest
  obtain ⟨⟨⟨⟨⟨⟨⟨⟨⟨⟨hid, h2⟩, h3⟩, h4⟩, h5⟩, h6⟩, h7⟩, h8⟩, h9⟩, h10⟩, h11⟩ := hrest
  obtain ⟨hne, hfmt⟩ := smSurveyIdCheck_nil name hdrs m r hcol hid
  rw [hws, smSurveyIdCheck_dup name hdrs F m r hcol hne hfmt hmem,
    h2, h3, h4, h5, h6, h7, h8, h9, h10, h11]
  rfl

theorem validateSM_append_dup (name : String) (hdrs : List String) (h0 : Row)
    (rows : List Row) (r : Row) (hcol : hasCol hdrs "Survey ID" = true)
    (hclean : smRowViolations name hdrs [] (rows.length + 2) r = [])
    (hdup : strAt hdrs r "Survey ID" ∈ smSetAfter hdrs rows) :
    validateSurveyMasterSheet ⟨name, h0 :: (rows ++ [r]), hdrs⟩
      = validateSurveyMasterSheet ⟨name, h0 :: rows, hdrs⟩
        ++ [sm02V name (rows.length + 2) (strAt hdrs r "Survey ID")] := by
  unfold validateSurveyMasterSheet
  simp only [List.drop_succ_cons, List.drop_zero]
  rw [scanRows_append]
  have harith : 2 + rows.length = rows.length + 2 := by omega
  rw [harith]
  have hsingle : scanRows (smRowViolations name hdrs) (smUpd hdrs)
      (rows.foldl (smUpd hdrs) []) (rows.length + 2) [r]
      = smRowViolations name hdrs (rows.foldl (smUpd hdrs) []) (rows.length + 2) r := by
    simp [scanRows]
  rw [hsingle, smRowViolations_dup name hdrs (rows.foldl (smUpd hdrs) [])
    (rows.length + 2) r hcol hclean hdup, List.append_assoc]
  rfl

theorem structural_congr (s1 s2 : List Sheet) (hlen : s1.length = s2.length)
    (hnames : s1.map Sheet.name = s2.map Sheet.name) :
    structuralViolations s1 = structuralViolations s2 := by
  unfold structuralViolations
  rw [hlen]
  have hany : ∀ (l : List Sheet) (e : String),
      l.any (fun s => jsTrim s.name == e)
        = (l.map Sheet.name).any (fun nm => jsTrim nm == e) := by
    intro l e
    induction l with
    | nil => rfl
    | cons x xs ih => simp [ih]
  have hfm : ∀ l : List Sheet,
      (l.filterMap fun s =>
        if expectedSheets.contains (jsTrim s.name) then none
        else some (unexpectedSheetV s.name))
        = (l.map Sheet.name).filterMap fun nm =>
          if expectedSheets.contains (jsTrim nm) then none
          else some (unexpectedSheetV nm) := by
    intro l
    induction l with
    | nil => rfl
    | cons x xs ih => simp only [List.map_cons, List.filterMap_cons, ih]
  have h2 : (expectedSheets.filterMap fun e =>
      if s1.any (fun s => jsTrim s.name == e) then none else some (missingSheetV e))
      = expectedSheets.filterMap fun e =>
        if s2.any (fun s => jsTrim s.name == e) then none else some (missingSheetV e) := by
    apply List.filterMap_congr
    intro e _
    rw [hany s1 e, hany s2 e, hnames]
  rw [h2, hfm s1, hfm s2, hnames]

theorem validateSheet_smName (name : String) (hdrs : List String) (h0 : Row) (l : List Row)
    (hname : jsTrim name = "Survey Master") :
    validateSheet ⟨name, h0 :: l, hdrs⟩ = validateSurveyMasterSheet ⟨name, h0 :: l, hdrs⟩ := by
  unfold validateSheet
  simp [hname]

/-- C6 (amended): appending to a Survey Master sheet a data row that is
violation-free on its own (it produces no violations when checked with an
empty Survey-ID accumulator at its position) and whose Survey ID is
already in the accumulator built from the existing rows adds exactly one
new violation - the `SM-02` duplicate - leaving every previously emitted
violation unchanged and increasing the document's `totalErrors` by exactly
1 (warnings unchanged). -/
theorem sm_duplicate_clean_append (A B : List Sheet) (name : String) (hdrs : List String)
    (h0 : Row) (rows : List Row) (r : Row)
    (hname : jsTrim name = "Survey Master")
    (hcol : hasCol hdrs "Survey ID" = true)
    (hclean : smRowViolations name hdrs [] (rows.length + 2) r = [])
    (hdup : strAt hdrs r "Survey ID" ∈ smSetAfter hdrs rows) :
    validateSurveyMasterSheet ⟨name, h0 :: (rows ++ [r]), hdrs⟩
        = validateSurveyMasterSheet ⟨name, h0 :: rows, hdrs⟩
          ++ [sm02V name (rows.length + 2) (strAt hdrs r "Survey ID")] ∧
    (validateFMBDumpSheet (A ++ ⟨name, h0 :: (rows ++ [r]), hdrs⟩ :: B)).2.totalErrors
        = (validateFMBDumpSheet (A ++ ⟨name, h0 :: rows, hdrs⟩ :: B)).2.totalErrors + 1 ∧
    (validateFMBDumpSheet (A ++ ⟨name, h0 :: (rows ++ [r]), hdrs⟩ :: B)).2.totalWarnings
        = (validateFMBDumpSheet (A ++ ⟨name, h0 :: rows, hdrs⟩ :: B)).2.totalWarnings := by
  have hT1 := validateSM_append_dup name hdrs h0 rows r hcol hclean hdup
  have hstruct : structuralViolations (A ++ ⟨name, h0 :: (rows ++ [r]), hdrs⟩ :: B)
      = structuralViolations (A ++ ⟨name, h0 :: rows, hdrs⟩ :: B) :=
    structural_congr _ _ (by simp) (by simp)
  have hflat : ∀ l : List Row,
      (A ++ (⟨name, h0 :: l, hdrs⟩ : Sheet) :: B).flatMap validateSheet
        = A.flatMap validateSheet
          ++ (validateSurveyMasterSheet ⟨name, h0 :: l, hdrs⟩ ++ B.flatMap validateSheet) := by
    intro l
    rw [List.flatMap_append, List.flatMap_cons, validateSheet_smName name hdrs h0 l hname]
  refine ⟨hT1, ?_, ?_⟩
  · show ((structuralViolations (A ++ ⟨name, h0 :: (rows ++ [r]), hdrs⟩ :: B)
        ++ (A ++ (⟨name, h0 :: (rows ++ [r]), hdrs⟩ : Sheet) :: B).flatMap validateSheet).filter
          (fun e => decide (e.severity = Severity.error))).length
      = ((structuralViolations (A ++ ⟨name, h0 :: rows, hdrs⟩ :: B)
        ++ (A ++ (⟨name, h0 :: rows, hdrs⟩ : Sheet) :: B).flatMap validateSheet).filter
          (fun e => decide (e.severity = Severity.error))).length + 1
    rw [hstruct, hflat (rows ++ [r]), hflat rows, hT1]
    simp only [List.filter_append, List.length_append]
    have hone : ((([sm02V name (rows.length + 2) (strAt hdrs r "Survey ID")]).filter
        (fun e => decide (e.severity = Severity.error)))).length = 1 := by
      simp [sm02V]
    rw [hone]
    omega
  · show ((structuralViolations (A ++ ⟨name, h0 :: (rows ++ [r]), hdrs⟩ :: B)
        ++ (A ++ (⟨name, h0 :: (rows ++ [r]), hdrs⟩ : Sheet) :: B).flatMap validateSheet).filter
          (fun e => decide (e.severity = Severity.warning))).length
      = ((structuralViolations (A ++ ⟨name, h0 :: rows, hdrs⟩ :: B)
        ++ (A ++ (⟨name, h0 :: rows, hdrs⟩ : Sheet) :: B).flatMap validateSheet).filter
          (fun e => decide (e.severity = Severity.warning))).length
    rw [hstruct, hflat (rows ++ [r]), hflat rows, hT1]
    simp only [List.filter_append, List.length_append]
    have hzero : ((([sm02V name (rows.length + 2) (strAt hdrs r "Survey ID")]).filter
        (fun e => decide (e.severity = Severity.warning)))).length = 0 := by
      simp [sm02V]
    rw [hzero]
    omega

/-- The Survey Master sheet `smSheetOK` with an exact copy of its single
valid data row appended. -/
def smSheetDup : Sheet :=
  ⟨"Survey Master", (smRequiredColumns.map CellValue.text) :: ([smRowOK] ++ [smRowOK]),
   smRequiredColumns⟩

/-- Witness for C6: duplicating the valid Survey Master row of the fully
valid document adds exactly one error. -/
theorem sm_duplicate_clean_append_witness :
    (validateFMBDumpSheet ([dmSheetOK] ++ smSheetDup :: [qmSheetOK, asSheetOK])).2.totalErrors
      = (validateFMBDumpSheet ([dmSheetOK]
          ++ (⟨"Survey Master", (smRequiredColumns.map CellValue.text) :: [smRowOK],
              smRequiredColumns⟩ : Sheet) :: [qmSheetOK, asSheetOK])).2.totalErrors + 1 :=
  (sm_duplicate_clean_append [dmSheetOK] [qmSheetOK, asSheetOK] "Survey Master"
    smRequiredColumns (smRequiredColumns.map CellValue.text) [smRowOK] smRowOK
    (by decide) (by decide) (by decide) (by decide)).2.1

def smDupHdrs : List String := ["Survey ID", "Foo"]

def smCexA : Sheet :=
  ⟨"Survey Master", [smDupHdrs.map CellValue.text, [.text "S_1", .text "x"]], smDupHdrs⟩

def smCexB : Sheet :=
  ⟨"Survey Master",
   [smDupHdrs.map CellValue.text, [.text "S_1", .text "x"], [.text "S_1", .text " y"]],
   smDupHdrs⟩

/-- Counterexample to C6 as stated: appending a row whose Survey ID equals
an earlier row's Survey ID increases `totalErrors` by 2, not 1, when the
appended row also violates another rule (here a leading-space cell). -/
theorem sm_duplicate_append_cex :
    strAt smDupHdrs [CellValue.text "S_1", CellValue.text " y"] "Survey ID"
        = strAt smDupHdrs [CellValue.text "S_1", CellValue.text "x"] "Survey ID" ∧
      (validateFMBDumpSheet [smCexB]).2.totalErrors
        = (validateFMBDumpSheet [smCexA]).2.totalErrors + 2 := by
  decide
